import Mathlib

/-!
# TickClick booking orchestrator — shallow embedding

This file embeds the core of the TickClick conversational ticket-booking
agent (a TypeScript/Next.js application) in Lean 4 and proves properties of
the orchestration state machine, the event matcher, the time-window parser,
the calendar availability checker and the payment/mint gates.

Modelling conventions:
* JavaScript `number` values carrying prices and SOL amounts are modelled as
  rationals (`ℚ`); scores are integers (`Int`).
* JavaScript `Date` values are modelled as integer epoch milliseconds with a
  UTC-only calendar (the application never manipulates time zones).
* Strings are Lean `String`s; the concrete regular expressions of the source
  are implemented as executable matchers over `List Char`.
* Effectful collaborator calls (LLM, fetch, Solana RPC, clock, randomness)
  are passed in explicitly as data (`Except`-valued oracles or plain values),
  so every embedded function is pure and executable.
* Absent optional string fields are modelled as `""` wherever the source
  relies on JavaScript string falsiness, and as `Option` where the source
  distinguishes `undefined` from a value.
-/

namespace TickClick

/-! ## String primitives (JavaScript string/regex operations) -/

/-- `startsWithList pat cs`: does `cs` start with `pat`? -/
def startsWithList : List Char → List Char → Bool
  | [], _ => true
  | _ :: _, [] => false
  | p :: ps, c :: cs => p == c && startsWithList ps cs

/-- JavaScript `s.includes(pat)`. -/
def containsSub (s pat : String) : Bool :=
  (List.range (s.data.length + 1)).any fun i => startsWithList pat.data (s.data.drop i)

/-- JavaScript `s.toLowerCase()` (ASCII, which is all the source compares). -/
def lowerStr (s : String) : String := ⟨s.data.map Char.toLower⟩

/-- JavaScript regex word character `\w` = `[A-Za-z0-9_]`. -/
def isWordChar (c : Char) : Bool := c.isAlphanum || c == '_'

/-- JavaScript `/\bw\b/.test(s)` for a word `w` consisting of word characters. -/
def wordMatch (s w : String) : Bool :=
  let cs := s.data
  let ws := w.data
  (List.range (cs.length + 1)).any fun i =>
    startsWithList ws (cs.drop i)
    && (if i = 0 then true else !isWordChar (cs.getD (i - 1) ' '))
    && (if cs.length ≤ i + ws.length then true else !isWordChar (cs.getD (i + ws.length) ' '))

/-- Character class `[a-zA-Z0-9._%+-]` (local part of the email regex). -/
def isLocalChar (c : Char) : Bool :=
  c.isAlphanum || c == '.' || c == '_' || c == '%' || c == '+' || c == '-'

/-- Character class `[a-zA-Z0-9.-]` (domain part of the email regex). -/
def isDomainChar (c : Char) : Bool := c.isAlphanum || c == '.' || c == '-'

/-- Character class `[a-zA-Z]` (TLD part of the email regex). -/
def isTldChar (c : Char) : Bool := c.isAlpha

/-- Try to end the domain run `d` at dot position `k`: requires a nonempty
domain prefix, a literal dot and at least two TLD letters (greedy). -/
def emailTldAt (d : List Char) (k : Nat) : Option (List Char) :=
  if d.getD k ' ' == '.' then
    let t := (d.drop (k + 1)).takeWhile isTldChar
    if 2 ≤ t.length then some (d.take k ++ '.' :: t) else none
  else none

/-- Backtracking for `[a-zA-Z0-9.-]+\.[a-zA-Z]{2,}` inside the maximal
domain-character run `d`: greedy, so the largest feasible dot position wins. -/
def emailDomainMatch (d : List Char) : Option (List Char) :=
  (((List.range d.length).reverse).filter (fun k => 1 ≤ k)).findSome? (emailTldAt d)

/-- Anchored match of `[a-zA-Z0-9._%+-]+@[a-zA-Z0-9.-]+\.[a-zA-Z]{2,}`
at the head of `cs`; returns the matched characters. -/
def emailMatchAt (cs : List Char) : Option (List Char) :=
  let l := cs.takeWhile isLocalChar
  if l.isEmpty then none
  else
    match cs.drop l.length with
    | '@' :: rest =>
      let d := rest.takeWhile isDomainChar
      match emailDomainMatch d with
      | some dt => some (l ++ '@' :: dt)
      | none => none
    | _ => none

/-- Leftmost match of the email regex (JavaScript `String.prototype.match`). -/
def findEmailMatch : List Char → Option (List Char)
  | [] => none
  | c :: cs =>
    match emailMatchAt (c :: cs) with
    | some m => some m
    | none => findEmailMatch cs

/-- `extractEmail` from `src/agent/index.ts`: first email-regex match, if any. -/
def extractEmail (message : String) : Option String :=
  (findEmailMatch message.data).map fun m => ⟨m⟩

/-- `emailRegex.test(userMessage)` from `classifyAction`. -/
def hasEmailAddr (s : String) : Bool := (findEmailMatch s.data).isSome

/-- `parseInt` on a digit run. -/
def digitsToNat (ds : List Char) : Nat :=
  ds.foldl (fun n c => 10 * n + (c.toNat - '0'.toNat)) 0

/-- Tail of the n-days regex after a keyword: `\s+(\d+)\s*days`. -/
def ndaysTail (cs : List Char) : Option Nat :=
  let ws := cs.takeWhile (·.isWhitespace)
  if ws.isEmpty then none
  else
    let r1 := cs.drop ws.length
    let ds := r1.takeWhile (·.isDigit)
    if ds.isEmpty then none
    else
      let r2 := r1.drop ds.length
      let r3 := r2.drop (r2.takeWhile (·.isWhitespace)).length
      if startsWithList "days".data r3 then some (digitsToNat ds) else none

/-- Match of `(?:next|within|in)\s+(\d+)\s*days` anchored at `cs`
(alternatives tried in regex order). -/
def ndaysAt (cs : List Char) : Option Nat :=
  ["next", "within", "in"].findSome? fun kw =>
    if startsWithList kw.data cs then ndaysTail (cs.drop kw.length) else none

/-- Leftmost match of the n-days regex, returning the captured number. -/
def findNDays : List Char → Option Nat
  | [] => none
  | c :: cs =>
    match ndaysAt (c :: cs) with
    | some n => some n
    | none => findNDays cs

/-- Core of `/(?:next\s+)?(?:two|2)\s+weeks/` anchored at `cs` (the optional
`next\s+` prefix does not affect whether a match exists somewhere). -/
def twoWeeksAt (cs : List Char) : Bool :=
  ["two", "2"].any fun kw =>
    startsWithList kw.data cs &&
    (let r := cs.drop kw.length
     let ws := r.takeWhile (·.isWhitespace)
     !ws.isEmpty && startsWithList "weeks".data (r.drop ws.length))

/-- `notes.match(/(?:next\s+)?(?:two|2)\s+weeks/)` as a test. -/
def hasTwoWeeks (s : String) : Bool :=
  (List.range s.data.length).any fun i => twoWeeksAt (s.data.drop i)

/-! ## Date arithmetic (JavaScript `Date`, modelled as UTC epoch milliseconds) -/

def msPerDay : Int := 86400000

/-- Day number (days since the epoch) of a timestamp. -/
def dayNumber (t : Int) : Int := Int.fdiv t msPerDay

def timeOfDayMs (h m s ms : Int) : Int := h * 3600000 + m * 60000 + s * 1000 + ms

/-- JavaScript `d.setHours(h, m, s, ms)`. -/
def setTime (t h m s ms : Int) : Int := dayNumber t * msPerDay + timeOfDayMs h m s ms

/-- `d.setHours(0, 0, 0, 0)`. -/
def atMidnight (t : Int) : Int := setTime t 0 0 0 0

/-- `d.setHours(23, 59, 59, 999)`. -/
def endOfDay (t : Int) : Int := setTime t 23 59 59 999

/-- `d.setDate(d.getDate() + n)` (no DST in the UTC model). -/
def addDays (t n : Int) : Int := t + n * msPerDay

/-- JavaScript `d.getDay()`: 0 = Sunday. Epoch day 0 (1970-01-01) was a Thursday. -/
def getDay (t : Int) : Int := Int.emod (dayNumber t + 4) 7

/-- Days since the epoch of the civil date `y-m-d` (`m` is 1-based; `d` may
be out of range and is normalised, as JavaScript `Date` does). -/
def civilToDays (y m d : Int) : Int :=
  let y1 := if m ≤ 2 then y - 1 else y
  let era := Int.fdiv y1 400
  let yoe := y1 - era * 400
  let mp := if 2 < m then m - 3 else m + 9
  let doy := Int.fdiv (153 * mp + 2) 5 + d - 1
  let doe := yoe * 365 + Int.fdiv yoe 4 - Int.fdiv yoe 100 + doy
  era * 146097 + doe - 719468

/-- Civil date `(year, month 1-based, day)` of a day number. -/
def civilFromDays (z0 : Int) : Int × Int × Int :=
  let z := z0 + 719468
  let era := Int.fdiv z 146097
  let doe := z - era * 146097
  let yoe := Int.fdiv (doe - Int.fdiv doe 1460 + Int.fdiv doe 36524 - Int.fdiv doe 146096) 365
  let y := yoe + era * 400
  let doy := doe - (365 * yoe + Int.fdiv yoe 4 - Int.fdiv yoe 100)
  let mp := Int.fdiv (5 * doy + 2) 153
  let d := doy - Int.fdiv (153 * mp + 2) 5 + 1
  let m := if mp < 10 then mp + 3 else mp - 9
  (if m ≤ 2 then y + 1 else y, m, d)

/-- JavaScript `d.getFullYear()`. -/
def getFullYear (t : Int) : Int := (civilFromDays (dayNumber t)).1

/-- JavaScript `d.getMonth()` (0-based). -/
def getMonth0 (t : Int) : Int := (civilFromDays (dayNumber t)).2.1 - 1

/-- JavaScript `new Date(y, monthIndex, day, hours, minutes, seconds, ms)`
with 0-based, possibly overflowing `monthIndex` and possibly 0 `day`. -/
def mkDateMs (y mIdx d h mi s ms : Int) : Int :=
  let y2 := y + Int.fdiv mIdx 12
  let m2 := Int.emod mIdx 12
  civilToDays y2 (m2 + 1) d * msPerDay + timeOfDayMs h mi s ms

/-- `new Date(t.getFullYear(), t.getMonth() + 1, 0, 23, 59, 59, 999)`:
end of the month containing `t`. -/
def endOfMonthMs (t : Int) : Int :=
  mkDateMs (getFullYear t) (getMonth0 t + 1) 0 23 59 59 999

/-- JavaScript `Math.ceil(a / b)` for integers `a` and positive `b`. -/
def ceilDiv (a b : Int) : Int := -(Int.fdiv (-a) b)

/-! ## Data model (`src/types`) -/

/-- A discovered event listing. Optional string fields use `""` for absent
(matching the JavaScript falsiness checks in the source). -/
structure ScrapedEvent where
  name : String
  venue : String
  date : String
  time : String
  dayOfWeek : String
  price : ℚ
  isFree : Bool
  genre : String
  description : String
deriving DecidableEq, Repr

structure Attendee where
  name : String
  email : String
deriving DecidableEq, Repr

structure UserIntent where
  attendees : List Attendee
  budget : Option ℚ
  preferredDays : List String
  genres : List String
  checkCalendar : Bool
  venuePreference : String
  additionalNotes : String
deriving DecidableEq, Repr

/-- A known-free time slot shared by all attendees (mock calendar path). -/
structure OverlappingSlot where
  date : String
  dayOfWeek : String
deriving DecidableEq, Repr

structure EventMatch where
  event : ScrapedEvent
  score : Int
  reasons : List String
  calendarMatch : Bool
  matchingSlot : Option OverlappingSlot
deriving DecidableEq, Repr

/-! ## Date parsing (`parseEventDate` in the event matcher) -/

/-- Month alternation `(Jan|Feb|...|Dec)` of the month-day regex, case
insensitive, returning the 0-based month index. -/
def monthIndex3 (s : String) : Option Int :=
  match lowerStr s with
  | "jan" => some 0
  | "feb" => some 1
  | "mar" => some 2
  | "apr" => some 3
  | "may" => some 4
  | "jun" => some 5
  | "jul" => some 6
  | "aug" => some 7
  | "sep" => some 8
  | "oct" => some 9
  | "nov" => some 10
  | "dec" => some 11
  | _ => none

/-- Anchored whole-string match of `/^(Jan|...|Dec)\s+(\d{1,2})$/i`,
returning 0-based month index and day. -/
def parseMonthDayStr (s : String) : Option (Int × Int) :=
  match s.data with
  | c1 :: c2 :: c3 :: rest =>
    match monthIndex3 ⟨[c1, c2, c3]⟩ with
    | some m =>
      let ws := rest.takeWhile (·.isWhitespace)
      if ws.isEmpty then none
      else
        let r := rest.drop ws.length
        let ds := r.takeWhile (·.isDigit)
        if ds.isEmpty || 2 < ds.length || !(r.drop ds.length).isEmpty then none
        else some (m, (digitsToNat ds : Int))
    | none => none
  | _ => none

/-- Match of `/(\d{1,2}):(\d{2})\s*(AM|PM)/i` anchored at `cs`, returning
`(hours, minutes, isPM)`. The 2-digit hour alternative is tried first
(greedy `\d{1,2}`); a 1-digit hour is only feasible when the 2-digit one
is not, because the colon position differs. -/
def timeMatchAt (cs : List Char) : Option (Nat × Nat × Bool) :=
  let hour : Option (Nat × List Char) :=
    match cs with
    | a :: b :: ':' :: rest =>
      if a.isDigit && b.isDigit then some (digitsToNat [a, b], rest) else none
    | a :: ':' :: rest => if a.isDigit then some (digitsToNat [a], rest) else none
    | _ => none
  match hour with
  | none => none
  | some (hh, rest) =>
    match rest with
    | a :: b :: r2 =>
      if a.isDigit && b.isDigit then
        let r3 := r2.drop (r2.takeWhile (·.isWhitespace)).length
        match r3 with
        | x :: y :: _ =>
          if (x.toLower == 'a' || x.toLower == 'p') && y.toLower == 'm' then
            some (hh, digitsToNat [a, b], x.toLower == 'p')
          else none
        | _ => none
      else none
    | _ => none

/-- Leftmost match of the time-of-day regex. -/
def timeMatchFirst : List Char → Option (Nat × Nat × Bool)
  | [] => none
  | c :: cs =>
    match timeMatchAt (c :: cs) with
    | some r => some r
    | none => timeMatchFirst cs

/-- Strict `YYYY-MM-DD` parse modelling the `new Date(dateStr)` ISO branch
of `parseEventDate` (the static event data uses this format; the branch also
requires `dateStr.includes("-")`, which such a string always satisfies). -/
def isoDateParse (s : String) : Option Int :=
  match s.data with
  | [y1, y2, y3, y4, '-', m1, m2, '-', d1, d2] =>
    if [y1, y2, y3, y4, m1, m2, d1, d2].all (·.isDigit) then
      some (civilToDays (digitsToNat [y1, y2, y3, y4]) (digitsToNat [m1, m2])
              (digitsToNat [d1, d2]) * msPerDay)
    else none
  | _ => none

/-- Convert a 12-hour clock reading to 24-hour, as the two sequential `if`
statements in the source do. -/
def to24Hour (hh : Nat) (pm : Bool) : Nat :=
  if pm && hh ≠ 12 then hh + 12 else if !pm && hh = 12 then 0 else hh

/-- `parseEventDate(dateStr, timeStr)` from the event matcher.  `now` supplies
`new Date().getFullYear()`; `timeStr = ""` models an absent time. -/
def parseEventDate (now : Int) (dateStr timeStr : String) : Option Int :=
  if dateStr = "" then none
  else
    match isoDateParse dateStr with
    | some t => some t
    | none =>
      match parseMonthDayStr dateStr with
      | some (m, d) =>
        let base := mkDateMs (getFullYear now) m d 0 0 0 0
        if timeStr = "" then some base
        else
          match timeMatchFirst timeStr.data with
          | some (hh, mm, pm) => some (setTime base (to24Hour hh pm) mm 0 0)
          | none => some base
      | none => none

/-! ## Time-window parser (`detectTimeRange`) -/

structure TimeRange where
  startMs : Int
  endMs : Int
deriving DecidableEq, Repr

/-- `detectTimeRange(intent)` from the event matcher (current revision).
`nowRaw` is the clock value (`new Date()`); the source immediately
normalises it to midnight. -/
def detectTimeRange (nowRaw : Int) (intent : UserIntent) : Option TimeRange :=
  let notes := lowerStr intent.additionalNotes
  let days := intent.preferredDays.map lowerStr
  let now := atMidnight nowRaw
  match findNDays notes.data with
  | some numDays => some ⟨now, endOfDay (addDays now numDays)⟩
  | none =>
    let dayOfWeek := getDay now
    let diffToMonday := if dayOfWeek = 0 then -6 else 1 - dayOfWeek
    let thisMonday := atMidnight (addDays now diffToMonday)
    let thisSunday := endOfDay (addDays thisMonday 6)
    let nextSunday := endOfDay (addDays thisMonday 13)
    if hasTwoWeeks notes || containsSub notes "couple of weeks" then
      some ⟨now, nextSunday⟩
    else if (containsSub notes "this week" && containsSub notes "next week")
        || (containsSub notes "this week" && containsSub notes "next")
        || containsSub notes "both weeks" then
      some ⟨thisMonday, nextSunday⟩
    else if containsSub notes "next week" && !containsSub notes "this week" then
      let nextMonday := addDays thisMonday 7
      some ⟨nextMonday, endOfDay (addDays nextMonday 6)⟩
    else if containsSub notes "this week" then
      some ⟨thisMonday, thisSunday⟩
    else if containsSub notes "this month" then
      some ⟨now, endOfMonthMs now⟩
    else if days.contains "weekend" || days.contains "this weekend"
        || containsSub notes "this weekend" || containsSub notes "weekend" then
      let saturday := atMidnight (addDays thisMonday 5)
      some ⟨saturday, thisSunday⟩
    else if containsSub notes "today" || containsSub notes "tonight" then
      some ⟨now, endOfDay now⟩
    else if containsSub notes "tomorrow" then
      let tomorrow := atMidnight (addDays now 1)
      some ⟨tomorrow, endOfDay tomorrow⟩
    else if containsSub notes "week" then
      some ⟨now, endOfDay (addDays now 7)⟩
    else none

/-! ## Event matcher (`scoreEvent` / `matchEvents`) -/

structure ScoreResult where
  score : Int
  reasons : List String
  calendarMatch : Bool
  matchingSlot : Option OverlappingSlot
deriving DecidableEq, Repr

/-- JavaScript `s.slice(0, 3)`. -/
def slice3 (s : String) : String := ⟨s.data.take 3⟩

/-- JavaScript `a.startsWith(b)`. -/
def strStartsWith (a b : String) : Bool := startsWithList b.data a.data

/-- Continuation of `scoreEvent` after the budget gate: free/paid filters,
day preference, genre, calendar availability, proximity, base bonus. -/
def scoreEventRest2 (now : Int) (event : ScrapedEvent) (intent : UserIntent)
    (freeSlots : Option (List OverlappingSlot)) (eventDate : Option Int)
    (today : Int) (score1 : Int) (reasons1 : List String) : ScoreResult :=
  let notes := lowerStr intent.additionalNotes
  -- Free event filter (hard when user wants free)
  if containsSub notes "free" && !event.isFree then
    ⟨0, ["Not a free event"], false, none⟩
  else
    let s2 := score1 + (if containsSub notes "free" && event.isFree then 25 else 0)
    let r2 := reasons1 ++
      (if containsSub notes "free" && event.isFree then ["Free event!"] else [])
    -- Paid event filter: exclude only events confirmed free by their description
    let wantsPaid := containsSub notes "paid" || containsSub notes "ticketed"
    if wantsPaid && event.isFree && event.price = 0 &&
        (let desc := lowerStr event.description
         containsSub desc "free" || containsSub desc "no cover" ||
           containsSub desc "no charge") then
      ⟨0, ["Free event - user wants paid"], false, none⟩
    else
      let s3 := s2 + (if wantsPaid && event.isFree && event.price = 0 then 5 else 0)
      -- Day preference
      let eventDow := lowerStr event.dayOfWeek
      let dayDelta : Int × List String :=
        if intent.preferredDays.length ≠ 0 then
          let preferred := intent.preferredDays.map lowerStr
          let wantsWeekend :=
            preferred.contains "weekend" || preferred.contains "this weekend"
          let isWeekend :=
            strStartsWith eventDow "sat" || strStartsWith eventDow "sun"
          if wantsWeekend && isWeekend then
            (25, ["Weekend event (" ++ event.dayOfWeek ++ ")"])
          else if eventDow ≠ "" && preferred.any (fun p =>
              strStartsWith eventDow (slice3 p) || strStartsWith p (slice3 eventDow)) then
            (25, ["On preferred day (" ++ event.dayOfWeek ++ ")"])
          else if eventDow ≠ "" && !wantsWeekend then (5, [])
          else (0, [])
        else (10, [])
      let s4 := s3 + dayDelta.1
      let r4 := r2 ++ dayDelta.2
      -- Genre match
      let eventGenre := lowerStr event.genre
      let genreHit := intent.genres.length ≠ 0 && event.genre ≠ "" &&
        intent.genres.any (fun g =>
          containsSub eventGenre (lowerStr g) || containsSub (lowerStr g) eventGenre)
      let s5 := s4 + (if genreHit then 20 else 0)
      let r5 := r4 ++ (if genreHit then ["Genre match (" ++ event.genre ++ ")"] else [])
      -- Calendar availability
      let calStep : Int × List String × Bool × Option OverlappingSlot :=
        match freeSlots with
        | some slots =>
          if intent.checkCalendar && slots.length ≠ 0 then
            match slots.find? (fun s =>
                match parseEventDate now s.date "", eventDate with
                | some sd, some ed => dayNumber sd == dayNumber ed
                | _, _ => s.date == event.date) with
            | some slot =>
              (30, ["All attendees are free on " ++ slot.dayOfWeek ++ ", " ++ slot.date],
                true, some slot)
            | none => (-20, ["Possible calendar conflict"], false, none)
          else (0, [], false, none)
        | none => (0, [], false, none)
      let s6 := s5 + calStep.1
      let r6 := r5 ++ calStep.2.1
      -- Date proximity bonus
      let proxStep : Int × List String :=
        match eventDate with
        | some ed =>
          let daysAway := ceilDiv (ed - today) msPerDay
          if 0 ≤ daysAway && daysAway ≤ 14 then
            (max 0 (15 - daysAway),
             if daysAway ≤ 7 then ["Coming up soon (in " ++ toString daysAway ++ " days)"]
             else [])
          else (0, [])
        | none => (0, [])
      let s7 := s6 + proxStep.1
      let r7 := r6 ++ proxStep.2
      -- Base score for being a valid event
      let s8 := if 0 < s7 then s7 + 10 else s7
      ⟨s8, r7, calStep.2.2.1, calStep.2.2.2⟩

/-- `scoreEvent` up to and including the budget gate (the hard budget
filter); delegates to `scoreEventRest2` when the budget admits the event. -/
def scoreEventRest (now : Int) (event : ScrapedEvent) (intent : UserIntent)
    (freeSlots : Option (List OverlappingSlot)) (eventDate : Option Int)
    (today : Int) (score0 : Int) (reasons0 : List String) : ScoreResult :=
  match intent.budget with
  | some b =>
    if b < event.price then ⟨0, ["Over budget"], false, none⟩
    else
      let r1 := reasons0 ++ [if event.isFree then "Free event - no cost!"
        else "Within budget ($" ++ toString event.price ++ " < $" ++ toString b ++ ")"]
      let s1 := score0 + 20 + (if event.isFree then 10 else 0)
      scoreEventRest2 now event intent freeSlots eventDate today s1 r1
  | none => scoreEventRest2 now event intent freeSlots eventDate today score0 reasons0

/-- `scoreEvent(event, intent, freeSlots, timeRange)` from the event matcher
(current revision). Early `return` statements become nested conditionals.
The source compares slot and event dates by `getFullYear`/`getMonth`/`getDate`
equality, which coincides with equality of day numbers. -/
def scoreEvent (now : Int) (event : ScrapedEvent) (intent : UserIntent)
    (freeSlots : Option (List OverlappingSlot)) (timeRange : Option TimeRange) :
    ScoreResult :=
  let eventDate := parseEventDate now event.date event.time
  let today := atMidnight now
  -- Past event filter (hard)
  if eventDate.any (fun ed => decide (ed < today)) then
    ⟨0, ["Event already passed"], false, none⟩
  else
    -- Time range filter (hard)
    match timeRange, eventDate with
    | some tr, some ed =>
      if ed < tr.startMs || tr.endMs < ed then
        ⟨0, ["Outside requested time range"], false, none⟩
      else scoreEventRest now event intent freeSlots eventDate today 15
             ["Within requested dates"]
    | some _, none =>
      ⟨0, ["Could not determine event date"], false, none⟩
    | none, _ => scoreEventRest now event intent freeSlots eventDate today 0 []

/-- Descending-score comparison used to model
`matches.sort((a, b) => b.score - a.score)`. -/
def scoreLe (a b : EventMatch) : Bool := b.score ≤ a.score

/-- `matchEvents(events, intent, freeSlots)` from the event matcher (current
revision): score every event, keep strictly positive scores, sort by score
descending, return the top 15. -/
def matchEvents (now : Int) (events : List ScrapedEvent) (intent : UserIntent)
    (freeSlots : Option (List OverlappingSlot)) : List EventMatch :=
  let timeRange := detectTimeRange now intent
  let scored := events.filterMap (fun e =>
    let r := scoreEvent now e intent freeSlots timeRange
    if 0 < r.score then
      some ⟨e, r.score, r.reasons, r.calendarMatch, r.matchingSlot⟩
    else none)
  (scored.mergeSort scoreLe).take 15

/-! ## Calendar availability checker (`src/agent/tools/checkCalendar.ts`) -/

/-- `parseEventTimeRange(dateStr, timeStr)`: 30 minutes before the event
start to 3 hours after. `none` models the `{ timeMin: null, timeMax: null }`
failure value. `now` supplies `new Date().getFullYear()`. -/
def parseEventTimeRange (now : Int) (dateStr timeStr : String) :
    Option (Int × Int) :=
  match parseMonthDayStr dateStr with
  | none => none
  | some (m, d) =>
    match timeMatchFirst timeStr.data with
    | none => none
    | some (hh, mm, pm) =>
      let eventStart := mkDateMs (getFullYear now) m d (to24Hour hh pm) mm 0 0
      some (eventStart - 30 * 60000, eventStart + 3 * 3600000)

/-- One calendar entry of the FreeBusy response (`data.calendars[email]`).
`errors` and `busy` are `Option` because the source guards them with
JavaScript truthiness (`calData.errors && ...`, `calData.busy || []`). -/
structure CalData where
  errors : Option (List String)
  busy : Option (List (String × String))
deriving DecidableEq, Repr

/-- Outcome of the `fetch` of the Google FreeBusy endpoint, passed in as
data: a thrown error, a non-OK HTTP response, or a parsed OK body. -/
inductive FreeBusyOutcome where
  | thrown (msg : String)
  | httpError (status : Int) (errMsg : Option String)
  | ok (calendars : List (String × CalData))
deriving DecidableEq, Repr

structure CalAttendee where
  email : String
  name : String
  busy : List (String × String)
  isFree : Bool
  error : Option String
deriving DecidableEq, Repr

structure CalendarCheckResult where
  success : Bool
  attendees : List CalAttendee
  allFree : Bool
  error : Option String
deriving DecidableEq, Repr

/-- `email.split("@")[0]`. -/
def localPart (email : String) : String := ⟨email.data.takeWhile (· ≠ '@')⟩

/-- Per-attendee entry construction inside `checkCalendarForEvent`. -/
def calAttendeeOf (calendars : List (String × CalData)) (email : String) :
    CalAttendee :=
  match calendars.lookup email with
  | none =>
    ⟨email, localPart email, [], true, some "Calendar not accessible - may not be shared"⟩
  | some calData =>
    match calData.errors with
    | some (r :: _) =>
      ⟨email, localPart email, [], true,
        some ("Calendar error: " ++ (if r = "" then "unknown" else r))⟩
    | _ =>
      let busyBlocks := calData.busy.getD []
      ⟨email, localPart email, busyBlocks, busyBlocks.isEmpty, none⟩

/-- `checkCalendarForEvent(calendarToken, attendeeEmails, eventDate,
eventTime, eventDayOfWeek)` with the FreeBusy `fetch` outcome passed in as
data. `calendarToken = ""` models a missing token. -/
def checkCalendarForEvent (now : Int) (fetchResult : FreeBusyOutcome)
    (calendarToken : String) (attendeeEmails : List String)
    (eventDate eventTime : String) : CalendarCheckResult :=
  if calendarToken = "" ∨ attendeeEmails = [] then
    ⟨false, [], true, some "No calendar token or emails"⟩
  else
    match parseEventTimeRange now eventDate eventTime with
    | none => ⟨false, [], true, some "Could not parse event time"⟩
    | some _ =>
      match fetchResult with
      | .thrown msg => ⟨false, [], true, some msg⟩
      | .httpError status errMsg =>
        ⟨false, [], true,
          some (if status = 401 then "Calendar token expired"
                else "API error: " ++ errMsg.getD "Unknown")⟩
      | .ok calendars =>
        let attendees := attendeeEmails.map (calAttendeeOf calendars)
        let allFree := attendees.all (·.isFree)
        ⟨true, attendees, allFree, none⟩

/-! ## Booking execution (`src/agent/tools/executeBooking.ts`, current
revision) -/

structure CnftMetadata where
  name : String
  symbol : String
  uri : String
  eventName : String
  eventDate : String
  venue : String
  attendeeName : String
  pricePaid : ℚ
deriving DecidableEq, Repr

structure TicketInfo where
  attendeeName : String
  cnftAssetId : String
  mintTxHash : String
  eventName : String
  eventDate : String
  venue : String
  pricePaid : ℚ
  status : String
  explorerUrl : String
deriving DecidableEq, Repr

structure BookingResult where
  success : Bool
  event : ScrapedEvent
  tickets : List TicketInfo
  paymentTxHash : Option String
  totalPaid : ℚ
  error : Option String
deriving DecidableEq, Repr

/-- Result of one `purchaseAndMintTicket` call. -/
structure MintOut where
  assetId : String
  mintTxHash : String
deriving DecidableEq, Repr

/-- The Solana/runtime environment of the booking tool: configuration read
from `process.env` plus the effectful collaborators (wallet loading, balance
query, mint RPC — indexed by ticket number — the clock and the mock
transaction-hash generator), all passed in as data. -/
structure SolanaEnv where
  merkleTreeAddress : Option String
  userWalletPublicKey : Option String
  venueWalletKeypairPath : Option String
  venueWalletPublicKeyEnv : Option String
  loadWalletFromFile : String → Except String String
  getBalance : String → Except String ℚ
  purchaseAndMintTicket : Nat → CnftMetadata → ℚ → Except String MintOut

/-- Clock and randomness inputs of a single turn (`Date.now()`,
`new Date().toISOString()`, `generateMockTxHash()`). -/
structure ClockEnv where
  nowMs : Int
  nowIso : String
  mockTxHash : String

/-- `getExplorerUrl(txSignature)` from the Solana utilities. -/
def getExplorerUrl (txSignature : String) : String :=
  "https://explorer.solana.com/tx/" ++ txSignature ++ "?cluster=devnet"

def BOOKING_FEE_SOL : ℚ := 1 / 1000

/-- `name.replace(/\s/g, "_")`. -/
def underscoreSpaces (s : String) : String :=
  ⟨s.data.map (fun c => if c.isWhitespace then '_' else c)⟩

/-- `simulateBooking(event, attendees)`: demo tickets, always successful. -/
def simulateBooking (clock : ClockEnv) (event : ScrapedEvent)
    (attendees : List Attendee) : BookingResult :=
  let mockTxHash := clock.mockTxHash
  let tickets := (attendees.enum).map fun (i, a) =>
    ({ attendeeName := a.name
       cnftAssetId := "DemoAsset_" ++ underscoreSpaces a.name ++ "_" ++
         toString clock.nowMs ++ "_" ++ toString i
       mintTxHash := mockTxHash
       eventName := event.name
       eventDate := event.date
       venue := event.venue
       pricePaid := event.price
       status := "Active"
       explorerUrl := "https://explorer.solana.com/tx/" ++ mockTxHash ++ "?cluster=devnet"
     } : TicketInfo)
  { success := true
    event := event
    tickets := tickets
    paymentTxHash := if 0 < event.price then some mockTxHash else none
    totalPaid := event.price * attendees.length
    error := none }

/-- Consume a leading `\s*\(Sold Out\)` (case-insensitive), returning how
many characters it spans. -/
def soldOutConsume (cs : List Char) : Option Nat :=
  let ws := (cs.takeWhile (·.isWhitespace)).length
  let r := cs.drop ws
  if (r.take 10).map Char.toLower = "(sold out)".data then some (ws + 10) else none

/-- `event.name.replace(/\s*\(Sold Out\)/gi, "")`. -/
def removeSoldOut : List Char → List Char
  | [] => []
  | c :: cs =>
    match soldOutConsume (c :: cs) with
    | some k => removeSoldOut (cs.drop (k - 1))
    | none => c :: removeSoldOut cs
termination_by cs => cs.length
decreasing_by
  all_goals simp [List.length_drop]
  omega

/-- The mint loop of `executeBooking`: one `purchaseAndMintTicket` call per
attendee, in order, aborting at the first thrown error. -/
def mintTickets (env : SolanaEnv) (event : ScrapedEvent) :
    List (Nat × Attendee) → Except String (List TicketInfo)
  | [] => .ok []
  | (i, attendee) :: rest =>
    let metadata : CnftMetadata :=
      { name := (⟨removeSoldOut event.name.data⟩ : String) ++ " - " ++ attendee.name
        symbol := "TICK"
        uri := ""
        eventName := event.name
        eventDate := event.date
        venue := event.venue
        attendeeName := attendee.name
        pricePaid := event.price }
    match env.purchaseAndMintTicket i metadata BOOKING_FEE_SOL with
    | .error e => .error e
    | .ok result =>
      match mintTickets env event rest with
      | .error e => .error e
      | .ok ts =>
        .ok (({ attendeeName := attendee.name
                cnftAssetId := result.assetId
                mintTxHash := result.mintTxHash
                eventName := event.name
                eventDate := event.date
                venue := event.venue
                pricePaid := event.price
                status := "Active"
                explorerUrl := getExplorerUrl result.mintTxHash } : TicketInfo) :: ts)

/-- The `try` block body of `executeBooking`: load the venue wallet, check
the balance, then mint one cNFT per attendee. -/
def executeBookingTry (env : SolanaEnv) (event : ScrapedEvent)
    (attendees : List Attendee) : Except String BookingResult :=
  let walletPath := env.venueWalletKeypairPath.getD "./wallets/venue-wallet.json"
  match env.loadWalletFromFile walletPath with
  | .error e => .error e
  | .ok venuePub =>
    match env.getBalance venuePub with
    | .error e => .error e
    | .ok balance =>
      let totalFeesNeeded := BOOKING_FEE_SOL * attendees.length + 1 / 100
      if balance < totalFeesNeeded then
        .error ("Insufficient SOL. Need ~" ++ toString totalFeesNeeded ++
          " SOL, have " ++ toString balance ++ " SOL. Run: solana airdrop 2 " ++ venuePub)
      else
        match mintTickets env event attendees.enum with
        | .error e => .error e
        | .ok tickets =>
          .ok { success := true
                event := event
                tickets := tickets
                paymentTxHash := (tickets.head?).map (·.mintTxHash)
                totalPaid := event.price * attendees.length
                error := none }

/-- `executeBooking(request)` (current revision): falls back to
`simulateBooking` when the Merkle tree or user wallet is unconfigured, and
— crucially — also when the `try` block throws (RPC failure, insufficient
balance, wallet-load failure). -/
def executeBooking (env : SolanaEnv) (clock : ClockEnv) (event : ScrapedEvent)
    (attendees : List Attendee) : BookingResult :=
  match env.merkleTreeAddress with
  | none => simulateBooking clock event attendees
  | some _ =>
    match env.userWalletPublicKey with
    | none => simulateBooking clock event attendees
    | some _ =>
      match executeBookingTry env event attendees with
      | .ok r => r
      | .error _ => simulateBooking clock event attendees

/-- `formatBookingResult(result)` (current revision). Message literals are
ASCII-simplified (emoji elided); numbers render with the ℚ `toString`. -/
def formatBookingResult (result : BookingResult) : String :=
  if !result.success then
    "Booking failed: " ++ (result.error.getD "") ++
      "\n\nPlease try again or choose a different event."
  else
    let isReal :=
      match result.tickets.head? with
      | some t => !(strStartsWith t.cnftAssetId "DemoAsset")
      | none => true
    let header :=
      if isReal then "**Booking Confirmed - Real On-Chain Tickets!**\n\n"
      else "**Booking Confirmed (Demo Mode)**\n\n"
    let dateStr :=
      if result.event.dayOfWeek ≠ "" then
        result.event.dayOfWeek ++ ", " ++ result.event.date
      else result.event.date
    let core := header ++
      "**Event:** " ++ result.event.name ++ "\n" ++
      "**Venue:** " ++ result.event.venue ++ "\n" ++
      "**Date:** " ++ dateStr ++ " at " ++ result.event.time ++ "\n" ++
      "**Total:** " ++ (if result.event.isFree then "FREE"
        else "$" ++ toString result.totalPaid) ++ "\n" ++
      (if isReal then
        "**Booking Fee:** " ++ toString (BOOKING_FEE_SOL * result.tickets.length) ++
          " SOL (devnet)\n\n"
      else "")
    let ticketLines := String.join ((result.tickets.enum).map fun (i, ticket) =>
      "\n**Ticket " ++ toString (i + 1) ++ ": " ++ ticket.attendeeName ++ "**\n" ++
      "- Event: " ++ ticket.eventName ++ "\n" ++
      "- Venue: " ++ ticket.venue ++ "\n" ++
      (if isReal then
        "- cNFT ID: " ++ ticket.cnftAssetId ++ "\n" ++
        "- Mint Tx: " ++ (⟨ticket.mintTxHash.data.take 20⟩ : String) ++ "...\n" ++
        "- [Verify on Solana Explorer](" ++ ticket.explorerUrl ++ ")\n"
      else
        "- Asset ID: " ++ ticket.cnftAssetId ++ "\n" ++
        "- Status: " ++ ticket.status ++ "\n"))
    let footer :=
      if isReal then
        "\n---\n**These are real compressed NFTs (cNFTs) minted on Solana devnet!**\n" ++
          "Each ticket lives on-chain and is owned by your wallet. " ++
          "Click the Explorer links to verify."
      else
        "\n---\n*Demo mode: Configure MERKLE_TREE_ADDRESS and " ++
          "USER_WALLET_PUBLIC_KEY in .env.local for real on-chain tickets.*"
    core ++ "\n**Tickets:**\n" ++ ticketLines ++ footer

/-- `formatCalendarResults(result)` from the calendar tool
(ASCII-simplified). -/
def formatCalendarResults (result : CalendarCheckResult) : String :=
  if !result.success then
    "Could not check calendars: " ++ result.error.getD ""
  else if result.allFree then
    "**All attendees are free!**\n\n" ++
      String.join (result.attendees.map fun a =>
        "- " ++ a.email ++ ": FREE" ++
          (match a.error with
           | some e => " _(" ++ e ++ ")_"
           | none => "") ++ "\n")
  else
    "**Calendar Conflict Detected!**\n\n" ++
      String.join (result.attendees.map fun a =>
        if a.isFree then "- " ++ a.email ++ ": FREE\n"
        else "- " ++ a.email ++ ": BUSY\n" ++
          String.join (a.busy.map fun b =>
            "  - Busy from " ++ b.1 ++ " to " ++ b.2 ++ "\n"))

/-! ## Agent state and intent classifier (`src/agent/index.ts`) -/

structure PendingConflictBooking where
  event : ScrapedEvent
  attendees : List Attendee
  userWallet : Option String
  calendarToken : Option String
  attendeeEmails : Option (List String)
deriving DecidableEq, Repr

structure AgentState where
  events : List ScrapedEvent
  -- the source field is called `matches`, a reserved word in Lean
  matchList : List EventMatch
  intent : Option UserIntent
  awaitingConfirmation : Bool
  lastPresentedEvents : List EventMatch
  awaitingEmail : Bool
  lastBookingResult : Option BookingResult
  awaitingBookAnyway : Bool
  pendingConflictBooking : Option PendingConflictBooking
  calendarChecked : Bool
  paymentConfirmed : Bool
  bookingExecuted : Bool
deriving DecidableEq, Repr

/-- The initial module-level `state` object (also the result of
`resetAgentState`). -/
def initialAgentState : AgentState :=
  ⟨[], [], none, false, [], false, none, false, none, false, false, false⟩

inductive UserAction where
  | greeting | search_events | book_ticket | check_calendar | general_question
  | confirm_booking | provide_email | cancel | book_anyway | discover_music
deriving DecidableEq, Repr

/-- Result of the deterministic prefix of `classifyAction`: either a decided
action, or `none` meaning the source falls through to the LLM call. The two
`clears*` flags record the state mutations the prefix performs. -/
structure ClassifyStep where
  result : Option UserAction
  clearsEmailState : Bool
  clearsConflictState : Bool
deriving DecidableEq, Repr

def musicKeywords : List String :=
  ["music", "listen", "play", "song", "track", "audius", "artist", "tune",
   "vibe", "playlist"]

/-- The deterministic short-circuits of `classifyAction(userMessage,
isAwaitingConfirmation, isAwaitingEmail, isAwaitingBookAnyway)` (everything
before the LLM call), as a pure function of message and flags. -/
def classifyActionDet (userMessage : String)
    (_isAwaitingConfirmation isAwaitingEmail isAwaitingBookAnyway : Bool) :
    ClassifyStep :=
  let hasEmail := hasEmailAddr userMessage
  let lower := lowerStr userMessage
  let isCalendarContext := containsSub lower "calendar" ||
    containsSub lower "availability" || containsSub lower "free slot"
  let wantsEmail := wordMatch lower "send" || wordMatch lower "mail" ||
    wordMatch lower "email" || wordMatch lower "confirmation"
  if hasEmail && !isCalendarContext && wantsEmail then
    ⟨some .provide_email, false, false⟩
  else if isAwaitingEmail && hasEmail && !isCalendarContext then
    ⟨some .provide_email, false, false⟩
  else if isAwaitingEmail && !isCalendarContext && hasEmail then
    ⟨some .provide_email, false, false⟩
  else if isAwaitingEmail && !isCalendarContext &&
      (containsSub lower "no" || containsSub lower "skip" ||
        containsSub lower "later") then
    ⟨some .general_question, true, false⟩
  else if isAwaitingBookAnyway &&
      (containsSub lower "book anyway" || containsSub lower "yes" ||
        containsSub lower "go ahead" || containsSub lower "proceed" ||
        containsSub lower "ignore" || containsSub lower "book it") then
    ⟨some .book_anyway, false, false⟩
  else if isAwaitingBookAnyway &&
      (containsSub lower "no" || containsSub lower "cancel" ||
        containsSub lower "different" || containsSub lower "alternative" ||
        containsSub lower "other") then
    ⟨some .search_events, false, true⟩
  else if musicKeywords.any (containsSub lower ·) && !containsSub lower "book" &&
      !containsSub lower "ticket" then
    ⟨some .discover_music, false, false⟩
  else ⟨none, false, false⟩

/-- Apply the state mutations recorded in a `ClassifyStep` (the assignments
`state.awaitingEmail = false; state.lastBookingResult = null` and
`state.awaitingBookAnyway = false; state.pendingConflictBooking = null`). -/
def applyClassifyStep (c : ClassifyStep) (st : AgentState) : AgentState :=
  let st1 := if c.clearsEmailState then
    { st with awaitingEmail := false, lastBookingResult := none } else st
  if c.clearsConflictState then
    { st1 with awaitingBookAnyway := false, pendingConflictBooking := none }
  else st1

/-- Lines 370-374 of `handleMessage`: a client-echoed `BookingResult` is
always restored into server state before classification. -/
def restoreFromClient (clientBookingResult : Option BookingResult)
    (st : AgentState) : AgentState :=
  match clientBookingResult with
  | some br => { st with lastBookingResult := some br, awaitingEmail := true }
  | none => st

/-! ## Payment gate and booking pipeline (`src/agent/index.ts`) -/

/-- `calculateDevnetSol(priceUsd)`: the fixed devnet divisor. -/
def calculateDevnetSol (priceUsd : ℚ) : ℚ :=
  if priceUsd ≤ 0 then 0 else priceUsd / 10000

structure ToolCallResult where
  tool : String
  status : String
  summary : String
deriving DecidableEq, Repr

/-- The `walletAction` payload returned to the client (`sign_message` or
`transfer_sol`). -/
structure WalletAction where
  type : String
  message : Option String
  amount : Option ℚ
  recipient : Option String
  description : Option String
deriving DecidableEq, Repr

/-- The `pendingBooking` snapshot `{ event, attendees, calendarToken,
attendeeEmails }` echoed to the client by the payment gate. -/
structure PendingBooking where
  event : ScrapedEvent
  attendees : List Attendee
  calendarToken : Option String
  attendeeEmails : Option (List String)
deriving DecidableEq, Repr

/-- The fields of the agent turn response relevant to the pipeline. -/
structure TurnOut where
  response : String
  toolCalls : List ToolCallResult
  tickets : Option (List TicketInfo)
  walletAction : Option WalletAction
  pendingBooking : Option PendingBooking
  bookingResult : Option BookingResult
  needsEmails : Bool
deriving DecidableEq, Repr

/-- Instrumentation of one turn: which external collaborators were invoked.
`mintRequest` records the event/attendee arguments of the mint call. -/
structure Trace where
  calendarCheckCalled : Bool
  paymentGateReached : Bool
  mintCalled : Bool
  mintRequest : Option (ScrapedEvent × List Attendee)
deriving DecidableEq, Repr

def Trace.none' : Trace := ⟨false, false, false, none⟩

/-- Details passed to `createCalendarEvent`. -/
structure CalendarEventDetails where
  eventName : String
  venueName : String
  eventDate : String
  eventTime : String
  durationMinutes : Nat
  attendeeEmails : List String
  ticketIds : List String
  transactionHashes : List String
  eventDayOfWeek : String
deriving DecidableEq, Repr

/-- The calendar-write collaborator: token and details to an event link on
success (`eventLink` may be absent), or an error string. -/
structure CalendarEnv where
  createCalendarEvent : String → CalendarEventDetails → Except String (Option String)

/-- JavaScript truthiness of an optional string (`undefined` and `""` are
falsy). -/
def optTruthy : Option String → Bool
  | some s => s != ""
  | none => false

/-- Display-only model of JavaScript `x.toFixed(6)` on a rational. -/
def toFixed6 (q : ℚ) : String :=
  let n := Int.fdiv (q * 1000000 * 2 + 1).num ((q * 1000000 * 2 + 1).den * 2)
  let m := n.natAbs
  let frac := toString (m % 1000000)
  (if n < 0 then "-" else "") ++ toString (m / 1000000) ++ "." ++
    (⟨List.replicate (6 - frac.data.length) '0'⟩ : String) ++ frac

/-- STEP 7.5 of the pipeline (duplicated verbatim in `proceedToPayment` and
`executePendingBooking` in the source): create a Google Calendar event after
a successful mint; failure is reported as a warning tool call and never
invalidates the booking. Returns the added tool calls and the message
fragment. The source reads ticket ids and transaction hashes through the
loosely-typed accessors `t.assetId || t.cNftId` and `t.mintTx`; they are
modelled by the actual `TicketInfo` fields. -/
def calendarCreateStep (calEnv : CalendarEnv) (calendarToken : Option String)
    (result : BookingResult) (event : ScrapedEvent)
    (attendeeEmails : Option (List String)) : List ToolCallResult × String :=
  if optTruthy calendarToken && result.success && event.date != "" &&
      event.time != "" then
    let details : CalendarEventDetails :=
      { eventName := event.name
        venueName := event.venue
        eventDate := event.date
        eventTime := event.time
        durationMinutes := 120
        attendeeEmails := attendeeEmails.getD []
        ticketIds := result.tickets.map (·.cnftAssetId)
        transactionHashes := result.tickets.map (·.mintTxHash)
        eventDayOfWeek := event.dayOfWeek }
    match calEnv.createCalendarEvent (calendarToken.getD "") details with
    | .ok eventLink =>
      ([⟨"create_calendar_event", "completed",
          "Added \"" ++ event.name ++ "\" to Google Calendar - invites sent to all attendees!"⟩],
       "\n\n**Added to Google Calendar!** " ++
         (match eventLink with
          | some l => "[View event](" ++ l ++ ")"
          | none => "") ++ "  \nAll attendees will receive calendar invites.")
    | .error e =>
      ([⟨"create_calendar_event", "error", "Calendar event creation failed: " ++ e⟩], "")
  else ([], "")

/-- `proceedToPayment(event, attendees, toolCalls, userWallet, calendarToken,
attendeeEmails)`: the payment/signature gate (STEP 6) and, when reachable, the
server-side mint (STEP 7) and email offer (STEP 9). -/
def proceedToPayment (env : SolanaEnv) (clock : ClockEnv) (calEnv : CalendarEnv)
    (event : ScrapedEvent) (attendees : List Attendee)
    (toolCalls : List ToolCallResult) (userWallet : Option String)
    (calendarToken : Option String) (attendeeEmails : Option (List String))
    (st : AgentState) : TurnOut × AgentState × Trace :=
  let calendarClearNote :=
    if toolCalls.any (fun tc => tc.tool == "calendar_clear") then
      "\n\n**Calendar check:** All attendees are free at event time!\n"
    else ""
  let calendarWarningNote :=
    if toolCalls.any (fun tc => tc.tool == "check_calendars" &&
        containsSub tc.summary "not connected") then
      "\n\n**Google Calendar is not connected** - I could not check for scheduling conflicts. [Reconnect Calendar] to verify availability before booking.\n"
    else ""
  let calendarNote :=
    if calendarClearNote ≠ "" then calendarClearNote else calendarWarningNote
  if optTruthy userWallet then
    -- Phantom wallet connected: REQUIRE wallet confirmation (code-enforced)
    let wallet := userWallet.getD ""
    let isFree := event.isFree || event.price == 0
    if isFree then
      let confirmMessage := String.intercalate "\n"
        ["TickClick Booking Confirmation",
         "Event: " ++ event.name,
         "Venue: " ++ event.venue,
         "Attendees: " ++ String.intercalate ", " (attendees.map (·.name)),
         "Wallet: " ++ wallet,
         "Timestamp: " ++ clock.nowIso]
      let tc2 := toolCalls ++ [⟨"wallet_confirmation", "completed",
        "Requesting wallet signature for free ticket booking"⟩]
      ({ response := "**Ready to book " ++ toString attendees.length ++
           " ticket(s) for \"" ++ event.name ++ "\"!**" ++ calendarNote ++
           "\n\nThis is a **free event** - no payment required. Please sign the confirmation message in your Phantom wallet to proceed.\n\n*Your wallet will be asked to sign a message (no SOL will be charged).*"
         toolCalls := tc2
         tickets := none
         walletAction := some ⟨"sign_message", some confirmMessage, none, none, none⟩
         pendingBooking := some ⟨event, attendees, calendarToken, attendeeEmails⟩
         bookingResult := none
         needsEmails := false },
       { st with paymentConfirmed := false },
       ⟨false, true, false, none⟩)
    else
      let solAmount := calculateDevnetSol event.price
      let venueWallet := env.venueWalletPublicKeyEnv.getD
        "AMowwS1iaoKZMMwJxWY5jdeCKukbm64XyZEg8fwbXCPw"
      let tc2 := toolCalls ++ [⟨"wallet_payment", "completed",
        "Requesting " ++ toString solAmount ++ " SOL payment for $" ++
          toString event.price ++ " ticket"⟩]
      ({ response := "**Ready to book " ++ toString attendees.length ++
           " ticket(s) for \"" ++ event.name ++ "\"!**" ++ calendarNote ++
           "\n\n**Ticket Price:** $" ++ toString event.price ++
           " per ticket\n**Devnet Payment:** " ++ toString solAmount ++
           " SOL per ticket (" ++ toFixed6 (solAmount * attendees.length) ++
           " SOL total)\n\nPlease approve the payment in your Phantom wallet.\n\n*This is a devnet transaction - no real funds are used.*"
         toolCalls := tc2
         tickets := none
         walletAction := some ⟨"transfer_sol", none,
           some (solAmount * attendees.length), some venueWallet,
           some (toString attendees.length ++ "x " ++ event.name ++ " - $" ++
             toString (event.price * attendees.length) ++ " (" ++
             toFixed6 (solAmount * attendees.length) ++ " SOL devnet)")⟩
         pendingBooking := some ⟨event, attendees, calendarToken, attendeeEmails⟩
         bookingResult := none
         needsEmails := false },
       { st with paymentConfirmed := false },
       ⟨false, true, false, none⟩)
  else
    -- No wallet: block for PAID events, server-side booking for FREE events
    let isFreeEvent := event.isFree || event.price == 0
    if !isFreeEvent then
      let tc2 := toolCalls ++ [⟨"wallet_required", "error",
        "Wallet required for paid event ($" ++ toString event.price ++
          ") - please connect Phantom wallet"⟩]
      ({ response := "**\"" ++ event.name ++ "\" costs $" ++ toString event.price ++
           " per ticket** ($" ++ toString (event.price * attendees.length) ++
           " total for " ++ toString attendees.length ++
           " ticket(s)).\n\n**Please connect your Phantom wallet** to proceed with payment. Click the **\"Solana Devnet\"** button in the top-right corner to connect.\n\n*Payment is on Solana devnet - no real funds are used. Once connected, just repeat your booking request and I will process everything!*"
         toolCalls := tc2
         tickets := none
         walletAction := none
         pendingBooking := none
         bookingResult := none
         needsEmails := false },
       st,
       ⟨false, true, false, none⟩)
    else
      let tc2 := toolCalls ++ [⟨"execute_booking", "running",
        "Booking \"" ++ event.name ++ "\" for " ++
          String.intercalate " & " (attendees.map (·.name)) ++ "..."⟩]
      let result :=
        if env.merkleTreeAddress.isSome && env.userWalletPublicKey.isSome then
          executeBooking env clock event attendees
        else simulateBooking clock event attendees
      let tc3 := tc2.dropLast ++ [⟨"execute_booking",
        if result.success then "completed" else "error",
        if result.success then
          "Booked " ++ toString result.tickets.length ++ " ticket(s) on Solana!"
        else "Booking failed: " ++ result.error.getD ""⟩]
      let st2 := { st with bookingExecuted := true }
      let calStep := calendarCreateStep calEnv calendarToken result event attendeeEmails
      let tc4 := tc3 ++ calStep.1
      let response0 := formatBookingResult result ++ calStep.2
      let response1 :=
        if result.success then
          response0 ++ "\n\n**Would you like me to email the booking confirmation?** Just share your email address and I will send you all the ticket details, transaction hashes, and Solana Explorer links."
        else response0
      let st3 :=
        if result.success then
          { st2 with lastBookingResult := some result, awaitingEmail := true,
                     awaitingConfirmation := false }
        else { st2 with awaitingConfirmation := false }
      ({ response := response1
         toolCalls := tc4
         tickets := some result.tickets
         walletAction := none
         pendingBooking := none
         bookingResult := if result.success then some result else none
         needsEmails := false },
       st3,
       ⟨false, true, true, some (event, attendees)⟩)

/-- `executeAndRespond(event, attendees, toolCalls, userWallet,
calendarToken, attendeeEmails)`: the code-gated calendar check (STEP 4/5)
followed by the payment gate. `fetchResult` is the FreeBusy collaborator
outcome consumed if and only if the check actually runs. -/
def executeAndRespond (env : SolanaEnv) (clock : ClockEnv) (calEnv : CalendarEnv)
    (fetchResult : FreeBusyOutcome) (event : ScrapedEvent)
    (attendees0 : List Attendee) (toolCalls : List ToolCallResult)
    (userWallet : Option String) (calendarToken : Option String)
    (attendeeEmails : Option (List String)) (st : AgentState) :
    TurnOut × AgentState × Trace :=
  let attendees := if attendees0.isEmpty then [⟨"User", ""⟩] else attendees0
  if optTruthy calendarToken then
    -- Calendar IS connected: MUST check before proceeding
    if attendeeEmails = none ∨ attendeeEmails = some [] then
      ({ response := "**Google Calendar is connected** - I need attendee email addresses to check for conflicts before booking.\n\nPlease share the email(s) for your group so I can verify everyone is free for **" ++
           event.name ++ "** on **" ++ event.dayOfWeek ++ " " ++ event.date ++
           " " ++ event.time ++ "**.\n\n*Example: \"My email is abc@gmail.com and my friend is xyz@gmail.com\"*"
         toolCalls := toolCalls
         tickets := none
         walletAction := none
         pendingBooking := none
         bookingResult := none
         needsEmails := true },
       st, Trace.none')
    else if event.date != "" && event.time != "" then
      let emails := attendeeEmails.getD []
      let tc2 := toolCalls ++ [⟨"check_calendars", "running",
        "Checking Google Calendar for " ++ toString emails.length ++ " attendee(s)..."⟩]
      let calResult := checkCalendarForEvent clock.nowMs fetchResult
        (calendarToken.getD "") emails event.date event.time
      let st2 := { st with calendarChecked := true }
      if calResult.success then
        let tc3 := tc2.dropLast ++ [⟨"check_calendars", "completed",
          if calResult.allFree then
            "All " ++ toString emails.length ++ " attendee(s) are free"
          else "Calendar conflict detected"⟩]
        if !calResult.allFree then
          let calendarMsg := formatCalendarResults calResult
          let st3 := { st2 with
            awaitingBookAnyway := true,
            awaitingConfirmation := false,
            pendingConflictBooking := some ⟨event, attendees, userWallet, none, none⟩ }
          ({ response := calendarMsg ++ "\n\n**" ++ event.name ++ "** is on **" ++
               event.dayOfWeek ++ ", " ++ event.date ++ " at " ++ event.time ++
               "**.\n\nWould you like to:\n1. **Book anyway** (ignore the conflict)\n2. **Pick a different event** (I will find one when everyone is free)"
             toolCalls := tc3
             tickets := none
             walletAction := none
             pendingBooking := none
             bookingResult := none
             needsEmails := false },
           st3, ⟨true, false, false, none⟩)
        else
          let tc4 := tc3 ++ [⟨"calendar_clear", "completed",
            "All attendees confirmed free for " ++ event.dayOfWeek ++ ", " ++
              event.date ++ " at " ++ event.time⟩]
          let (out, st', tr) := proceedToPayment env clock calEnv event attendees
            tc4 userWallet calendarToken attendeeEmails st2
          (out, st', { tr with calendarCheckCalled := true })
      else
        let tc3 := tc2.dropLast ++ [⟨"check_calendars", "completed",
          "Calendar check failed: " ++ calResult.error.getD "" ++ " - proceeding anyway"⟩]
        let (out, st', tr) := proceedToPayment env clock calEnv event attendees
          tc3 userWallet calendarToken attendeeEmails st2
        (out, st', { tr with calendarCheckCalled := true })
    else
      let tc2 := toolCalls ++ [⟨"check_calendars", "completed",
        "Calendar check skipped: event date/time not available in scraped data"⟩]
      let st2 := { st with calendarChecked := true }
      proceedToPayment env clock calEnv event attendees tc2 userWallet
        calendarToken attendeeEmails st2
  else
    -- No calendar connected: mark as N/A and proceed (warn if emails given)
    let st2 := { st with calendarChecked := true }
    let tc2 :=
      if (match attendeeEmails with
          | some (_ :: _) => true
          | _ => false) then
        toolCalls ++ [⟨"check_calendars", "completed",
          "Calendar not connected - connect Google Calendar to check conflicts before booking"⟩]
      else toolCalls
    proceedToPayment env clock calEnv event attendees tc2 userWallet
      calendarToken attendeeEmails st2

/-- The `book_anyway` case of `handleMessage` (lines 416-427): resume the
suspended conflict booking, skipping any further calendar check, or report
that nothing is pending. -/
def handleBookAnyway (env : SolanaEnv) (clock : ClockEnv) (calEnv : CalendarEnv)
    (toolCalls : List ToolCallResult) (calendarToken : Option String)
    (attendeeEmails : Option (List String)) (st : AgentState) :
    TurnOut × AgentState × Trace :=
  match st.pendingConflictBooking with
  | some pcb =>
    let st2 := { st with
      awaitingBookAnyway := false,
      pendingConflictBooking := none,
      calendarChecked := true }
    proceedToPayment env clock calEnv pcb.event pcb.attendees toolCalls
      pcb.userWallet calendarToken attendeeEmails st2
  | none =>
    ({ response := "No pending booking to confirm. Try searching for events first!"
       toolCalls := []
       tickets := none
       walletAction := none
       pendingBooking := none
       bookingResult := none
       needsEmails := false },
     st, Trace.none')

/-- The email collaborator (`sendBookingEmail`). -/
structure EmailEnv where
  sendBookingEmail : String → BookingResult → Except String Unit

/-- `handleEmailSend(userMessage, toolCalls)`. The returned `Bool` records
whether the email collaborator was invoked. -/
def handleEmailSend (emailEnv : EmailEnv) (st : AgentState)
    (userMessage : String) (toolCalls : List ToolCallResult) :
    TurnOut × AgentState × Bool :=
  match extractEmail userMessage with
  | none =>
    ({ response := "I could not find a valid email address in your message. Could you share your email? (e.g., name@gmail.com)"
       toolCalls := []
       tickets := none
       walletAction := none
       pendingBooking := none
       bookingResult := none
       needsEmails := false }, st, false)
  | some email =>
    match st.lastBookingResult with
    | none =>
      ({ response := "I do not have a recent booking to email. Book some tickets first, then I will send the confirmation!"
         toolCalls := []
         tickets := none
         walletAction := none
         pendingBooking := none
         bookingResult := none
         needsEmails := false }, st, false)
    | some br =>
      let tc2 := toolCalls ++ [⟨"send_email", "running",
        "Sending booking confirmation to " ++ email ++ "..."⟩]
      match emailEnv.sendBookingEmail email br with
      | .ok _ =>
        ({ response := "**Booking confirmation sent to " ++ email ++
             "!**\n\nThe email includes all your ticket details, transaction hashes, wallet addresses, and Solana Explorer links. Check your inbox (and spam folder just in case).\n\nAnything else I can help with?"
           toolCalls := tc2.dropLast ++ [⟨"send_email", "completed",
             "Booking confirmation sent to " ++ email ++ "!"⟩]
           tickets := none
           walletAction := none
           pendingBooking := none
           bookingResult := none
           needsEmails := false },
         { st with awaitingEmail := false, lastBookingResult := none }, true)
      | .error e =>
        ({ response := "Sorry, I could not send the email: " ++ e ++
             "\n\nYou can try again with a different email, or I can help you with something else."
           toolCalls := tc2.dropLast ++ [⟨"send_email", "error",
             "Failed to send email: " ++ e⟩]
           tickets := none
           walletAction := none
           pendingBooking := none
           bookingResult := none
           needsEmails := false }, st, true)

/-- `executePendingBooking(event, attendees, userWallet, paymentTxHash,
calendarToken, attendeeEmails)`: the resumption entry point invoked by the
execute-booking route after the asynchronous wallet action resolves
(STEPS 7-9 only; no calendar availability check happens here). -/
def executePendingBooking (env : SolanaEnv) (clock : ClockEnv)
    (calEnv : CalendarEnv) (event : ScrapedEvent) (attendees : List Attendee)
    (_userWallet : String) (paymentTxHash : Option String)
    (calendarToken : Option String) (attendeeEmails : Option (List String))
    (st : AgentState) : TurnOut × AgentState × Trace :=
  let st1 := { st with paymentConfirmed := true }
  let toolCalls := [(⟨"execute_booking", "running",
    "Minting cNFT tickets for \"" ++ event.name ++ "\"..."⟩ : ToolCallResult)]
  let result :=
    if env.merkleTreeAddress.isSome then executeBooking env clock event attendees
    else simulateBooking clock event attendees
  let tc2 := toolCalls.dropLast ++ [⟨"execute_booking",
    if result.success then "completed" else "error",
    if result.success then
      "Minted " ++ toString result.tickets.length ++ " cNFT ticket(s) on Solana!"
    else "Booking failed: " ++ result.error.getD ""⟩]
  let st2 := { st1 with bookingExecuted := true }
  let calStep := calendarCreateStep calEnv calendarToken result event attendeeEmails
  let tc3 := tc2 ++ calStep.1
  let response0 := formatBookingResult result ++ calStep.2
  let response1 :=
    match paymentTxHash with
    | some tx =>
      if result.success then
        response0 ++ "\n\n**Your payment:** [View on Explorer](https://explorer.solana.com/tx/" ++
          tx ++ "?cluster=devnet)"
      else response0
    | none => response0
  let response2 :=
    if result.success then
      response1 ++ "\n\n**Would you like me to email the booking confirmation?** Just share your email address and I will send you all the ticket details, transaction hashes, and Solana Explorer links."
    else response1
  let st3 :=
    if result.success then
      { st2 with lastBookingResult := some result, awaitingEmail := true }
    else st2
  ({ response := response2
     toolCalls := tc3
     tickets := some result.tickets
     walletAction := none
     pendingBooking := none
     bookingResult := if result.success then some result else none
     needsEmails := false },
   st3,
   ⟨false, false, true, some (event, attendees)⟩)

/-! ## Execute-booking API route (`POST /api/agent/execute-booking`,
`src/unnamed/part_004`) -/

/-- The JSON body the client echoes back when the wallet action resolves:
the `PendingBooking` snapshot plus wallet/payment proof. -/
structure ExecuteBookingBody where
  event : Option ScrapedEvent
  attendees : Option (List Attendee)
  userWallet : Option String
  paymentTxHash : Option String
  walletSignature : Option String
  calendarToken : Option String
  attendeeEmails : Option (List String)
deriving Repr

/-- `x || undefined` on an optional string (empty string becomes absent). -/
def orUndefined : Option String → Option String
  | some "" => none
  | x => x

/-- The route handler `POST(request)`: validate required fields, then call
`executePendingBooking` with the client-echoed snapshot. `Except` carries
the 400 error response. -/
def executeBookingRoutePOST (env : SolanaEnv) (clock : ClockEnv)
    (calEnv : CalendarEnv) (body : ExecuteBookingBody) (st : AgentState) :
    Except String (TurnOut × AgentState × Trace) :=
  match body.event, body.attendees, body.userWallet with
  | some ev, some atts, some w =>
    if w = "" then .error "Missing required fields: event, attendees, userWallet"
    else .ok (executePendingBooking env clock calEnv ev atts w
      body.paymentTxHash (orUndefined body.calendarToken) body.attendeeEmails st)
  | _, _, _ => .error "Missing required fields: event, attendees, userWallet"

/-! ## Concrete fixtures used by witnesses and counterexamples -/

/-- A clock/randomness snapshot for concrete runs. -/
def demoClock : ClockEnv :=
  ⟨1750000000000, "2025-06-15T11:06:40.000Z", "MockTxHash11111"⟩

/-- A Solana environment in which on-chain configuration is present but the
mint RPC always throws. -/
def failMintEnv : SolanaEnv :=
  { merkleTreeAddress := some "TreeAddr1111"
    userWalletPublicKey := some "UserPubKey1111"
    venueWalletKeypairPath := none
    venueWalletPublicKeyEnv := none
    loadWalletFromFile := fun _ => .ok "VenuePubKey1111"
    getBalance := fun _ => .ok 10
    purchaseAndMintTicket := fun _ _ _ => .error "RPC node unavailable" }

/-- A Solana environment with no on-chain configuration (simulation mode). -/
def demoEnvNoMint : SolanaEnv :=
  { merkleTreeAddress := none
    userWalletPublicKey := none
    venueWalletKeypairPath := none
    venueWalletPublicKeyEnv := none
    loadWalletFromFile := fun _ => .error "no wallet file"
    getBalance := fun _ => .error "no connection"
    purchaseAndMintTicket := fun _ _ _ => .error "not configured" }

/-- A calendar-write collaborator that always succeeds without a link. -/
def demoCalEnv : CalendarEnv := ⟨fun _ _ => .ok none⟩

/-- An email collaborator that always succeeds. -/
def demoEmailEnv : EmailEnv := ⟨fun _ _ => .ok ()⟩

/-- A paid event fixture. -/
def cPaidEvent : ScrapedEvent :=
  ⟨"Jazz Night", "Le Poisson Rouge", "Feb 28", "11:00 PM", "Saturday",
    3889 / 100, false, "Jazz", ""⟩

def cAttendees : List Attendee := [⟨"Aman", ""⟩, ⟨"Akash", ""⟩]

/-! ## Claims -/

/-- C10: for every paid event with `price_usd > 0` (free-flag false, nonzero
price, so the gate takes the paid branch), the payment gate requests a
`transfer_sol` wallet action whose amount is exactly
`price_usd / 10000 * attendeeCount`, i.e. `calculateDevnetSol` is exactly
division by the fixed devnet divisor 10000; in particular a 38.89-dollar
event yields 0.003889 SOL per ticket. -/
theorem C10_devnet_amount (env : SolanaEnv) (clock : ClockEnv)
    (calEnv : CalendarEnv) (event : ScrapedEvent) (attendees : List Attendee)
    (toolCalls : List ToolCallResult) (wallet : String)
    (calTok : Option String) (emails : Option (List String)) (st : AgentState)
    (hw : wallet ≠ "")
    (hfree : event.isFree = false) (hp : 0 < event.price) :
    calculateDevnetSol event.price = event.price / 10000 ∧
    ((proceedToPayment env clock calEnv event attendees toolCalls
        (some wallet) calTok emails st).1.walletAction.map
      (fun wa => (wa.type, wa.amount))) =
      some ("transfer_sol", some (event.price / 10000 * attendees.length)) ∧
    calculateDevnetSol (38.89 : ℚ) = (0.003889 : ℚ) := by
  have hne : ¬ event.price ≤ 0 := not_le.mpr hp
  have hne0 : (event.price == 0) = false := by
    simp [beq_iff_eq]
    exact ne_of_gt hp
  have hwt : optTruthy (some wallet) = true := by simp [optTruthy, hw]
  refine ⟨by simp [calculateDevnetSol, hne], ?_, by norm_num [calculateDevnetSol]⟩
  simp [proceedToPayment, hwt, hfree, hne0, calculateDevnetSol, hne]

/-- C10 witness: the theorem applied to the 38.89-dollar fixture with two
attendees; the requested amount is 2 x 0.003889 SOL. -/
theorem C10_devnet_amount_witness :
    calculateDevnetSol cPaidEvent.price = cPaidEvent.price / 10000 ∧
    ((proceedToPayment demoEnvNoMint demoClock demoCalEnv cPaidEvent
        cAttendees [] (some "Wallet1111") none none
        initialAgentState).1.walletAction.map
      (fun wa => (wa.type, wa.amount))) =
      some ("transfer_sol", some (cPaidEvent.price / 10000 * cAttendees.length)) ∧
    calculateDevnetSol (38.89 : ℚ) = (0.003889 : ℚ) :=
  C10_devnet_amount demoEnvNoMint demoClock demoCalEnv cPaidEvent cAttendees
    [] "Wallet1111" none none initialAgentState (by decide) (by rfl)
    (by norm_num [cPaidEvent])

/-- Concrete evaluation: in the failing-mint fixture the `try` block of
`executeBooking` throws the RPC error of the first mint call. -/
theorem executeBookingTry_fail_eval :
    executeBookingTry failMintEnv cPaidEvent cAttendees =
      .error "RPC node unavailable" := by
  rw [executeBookingTry]
  simp only [failMintEnv, cAttendees, mintTickets, List.enum, if_neg]
  norm_num [mintTickets, BOOKING_FEE_SOL]

/-- When on-chain configuration is present but the `try` block throws,
`executeBooking` returns the `simulateBooking` fallback. -/
theorem executeBooking_of_try_error (env : SolanaEnv) (clock : ClockEnv)
    (event : ScrapedEvent) (attendees : List Attendee) (e : String)
    (hmt : env.merkleTreeAddress.isSome = true)
    (huw : env.userWalletPublicKey.isSome = true)
    (hfail : executeBookingTry env event attendees = .error e) :
    executeBooking env clock event attendees =
      simulateBooking clock event attendees := by
  obtain ⟨mt, hmt'⟩ := Option.isSome_iff_exists.mp hmt
  obtain ⟨uw, huw'⟩ := Option.isSome_iff_exists.mp huw
  simp [executeBooking, hmt', huw', hfail]

/-- C2 counterexample: with on-chain configuration present and a mint RPC
that always throws, `executeBooking` returns `success = true` and no error -
the claimed `success = false` carrying the failure reason does not hold,
because the `catch` block falls back to `simulateBooking`. -/
theorem C2_counterexample :
    (executeBooking failMintEnv demoClock cPaidEvent cAttendees).success = true ∧
    (executeBooking failMintEnv demoClock cPaidEvent cAttendees).error = none ∧
    ¬((executeBooking failMintEnv demoClock cPaidEvent cAttendees).success = false) := by
  have h1 : executeBooking failMintEnv demoClock cPaidEvent cAttendees =
      simulateBooking demoClock cPaidEvent cAttendees :=
    executeBooking_of_try_error failMintEnv demoClock cPaidEvent cAttendees
      "RPC node unavailable" rfl rfl executeBookingTry_fail_eval
  rw [h1]
  simp [simulateBooking]

/-- C2 amended: when the mint collaborator call (or any step of the `try`
block) fails, `executeBooking` does NOT report failure; it falls back to
`simulateBooking` and returns a simulated success - `success = true`, one
demo ticket per attendee, and no error field. The underlying failure reason
is only logged, never surfaced in the `BookingResult`. -/
theorem C2_mint_failure_falls_back_to_simulation
    (env : SolanaEnv) (clock : ClockEnv) (event : ScrapedEvent)
    (attendees : List Attendee) (e : String)
    (hmt : env.merkleTreeAddress.isSome = true)
    (huw : env.userWalletPublicKey.isSome = true)
    (hfail : executeBookingTry env event attendees = .error e) :
    executeBooking env clock event attendees =
      simulateBooking clock event attendees ∧
    (executeBooking env clock event attendees).success = true ∧
    (executeBooking env clock event attendees).error = none ∧
    (executeBooking env clock event attendees).tickets.length =
      attendees.length := by
  have h1 : executeBooking env clock event attendees =
      simulateBooking clock event attendees :=
    executeBooking_of_try_error env clock event attendees e hmt huw hfail
  refine ⟨h1, ?_, ?_, ?_⟩ <;> rw [h1] <;> simp [simulateBooking]

/-- C2 witness: the amended theorem at the failing-mint fixture. -/
theorem C2_mint_failure_witness :
    executeBooking failMintEnv demoClock cPaidEvent cAttendees =
      simulateBooking demoClock cPaidEvent cAttendees :=
  (C2_mint_failure_falls_back_to_simulation failMintEnv demoClock cPaidEvent
    cAttendees "RPC node unavailable" (by rfl) (by rfl)
    executeBookingTry_fail_eval).1

/-- Per-attendee defaulting inside `checkCalendarForEvent`: an attendee whose
calendar is missing from the response or carries errors is marked free, and
a non-free attendee always carries explicit busy blocks. -/
theorem calAttendeeOf_default_free (cals : List (String × CalData))
    (email : String) :
    ((calAttendeeOf cals email).error.isSome → (calAttendeeOf cals email).isFree = true) ∧
    ((calAttendeeOf cals email).isFree = false → (calAttendeeOf cals email).busy ≠ []) := by
  unfold calAttendeeOf
  cases h : cals.lookup email with
  | none => simp
  | some cd =>
    cases he : cd.errors with
    | none => simp [he, List.isEmpty_iff]
    | some l =>
      cases l with
      | nil => simp [he, List.isEmpty_iff]
      | cons r rs => simp [he]

/-- C5: the calendar availability checker returns `allFree = true` in every
case where the check does not actually succeed (missing token or emails,
unparseable event date/time, non-OK FreeBusy response, thrown error); any
attendee whose calendar is inaccessible or errored defaults to free; hence a
conflict (`allFree = false`) can only arise from a successful FreeBusy call
that returned explicit busy blocks for some attendee. -/
theorem C5_calendar_failures_default_free (now : Int) (fetch : FreeBusyOutcome)
    (token : String) (emails : List String) (d t : String) :
    ((checkCalendarForEvent now fetch token emails d t).success = false →
      (checkCalendarForEvent now fetch token emails d t).allFree = true) ∧
    (∀ a ∈ (checkCalendarForEvent now fetch token emails d t).attendees,
      a.error.isSome → a.isFree = true) ∧
    ((checkCalendarForEvent now fetch token emails d t).allFree = false →
      (checkCalendarForEvent now fetch token emails d t).success = true ∧
      ∃ a ∈ (checkCalendarForEvent now fetch token emails d t).attendees,
        a.isFree = false ∧ a.busy ≠ []) := by
  unfold checkCalendarForEvent
  by_cases h0 : token = "" ∨ emails = []
  · simp [h0]
  · simp only [h0, if_false]
    cases hp : parseEventTimeRange now d t with
    | none => simp
    | some tr =>
      cases fetch with
      | thrown msg => simp
      | httpError status errMsg => simp
      | ok cals =>
        simp only []
        refine ⟨by simp, ?_, ?_⟩
        · intro a ha herr
          simp only [List.mem_map] at ha
          obtain ⟨em, _, rfl⟩ := ha
          exact (calAttendeeOf_default_free cals em).1 herr
        · intro hall
          refine ⟨by simp, ?_⟩
          rw [List.all_eq_false] at hall
          obtain ⟨a, ha, hfree⟩ := hall
          have hfree' : a.isFree = false := by simpa using hfree
          refine ⟨a, ha, hfree', ?_⟩
          simp only [List.mem_map] at ha
          obtain ⟨em, _, rfl⟩ := ha
          exact (calAttendeeOf_default_free cals em).2 hfree'

/-- C5 witness: a successful FreeBusy response marking the only attendee
busy yields a genuine conflict, and the theorem recovers the busy blocks. -/
theorem C5_calendar_failures_witness :
    (checkCalendarForEvent demoClock.nowMs
        (.ok [("akash@y.com", ⟨none, some [("22:30", "23:30")]⟩)])
        "tok123" ["akash@y.com"] "Feb 28" "11:00 PM").success = true ∧
    ∃ a ∈ (checkCalendarForEvent demoClock.nowMs
        (.ok [("akash@y.com", ⟨none, some [("22:30", "23:30")]⟩)])
        "tok123" ["akash@y.com"] "Feb 28" "11:00 PM").attendees,
      a.isFree = false ∧ a.busy ≠ [] :=
  (C5_calendar_failures_default_free demoClock.nowMs
    (.ok [("akash@y.com", ⟨none, some [("22:30", "23:30")]⟩)])
    "tok123" ["akash@y.com"] "Feb 28" "11:00 PM").2.2 (by decide)

/-- The budget gate of `scoreEvent` forces score 0 whenever a budget is set
and exceeded, whatever was accumulated before it. -/
theorem scoreEventRest_over_budget (now : Int) (event : ScrapedEvent)
    (intent : UserIntent) (freeSlots : Option (List OverlappingSlot))
    (eventDate : Option Int) (today s0 : Int) (r0 : List String) (b : ℚ)
    (hb : intent.budget = some b) (hp : b < event.price) :
    (scoreEventRest now event intent freeSlots eventDate today s0 r0).score = 0 := by
  simp [scoreEventRest, hb, hp]

/-- Every early-return branch of `scoreEvent` ahead of the budget gate also
returns score 0, so an over-budget event scores 0 unconditionally. -/
theorem scoreEvent_over_budget (now : Int) (event : ScrapedEvent)
    (intent : UserIntent) (freeSlots : Option (List OverlappingSlot))
    (tr : Option TimeRange) (b : ℚ)
    (hb : intent.budget = some b) (hp : b < event.price) :
    (scoreEvent now event intent freeSlots tr).score = 0 := by
  show (let eventDate := parseEventDate now event.date event.time
        let today := atMidnight now
        if eventDate.any (fun ed => decide (ed < today)) then
          (⟨0, ["Event already passed"], false, none⟩ : ScoreResult)
        else
          match tr, eventDate with
          | some tr, some ed =>
            if ed < tr.startMs || tr.endMs < ed then
              ⟨0, ["Outside requested time range"], false, none⟩
            else scoreEventRest now event intent freeSlots eventDate today 15
                   ["Within requested dates"]
          | some _, none =>
            ⟨0, ["Could not determine event date"], false, none⟩
          | none, _ => scoreEventRest now event intent freeSlots eventDate today 0
              []).score = 0
  simp only []
  split
  · rfl
  · split
    · split
      · rfl
      · exact scoreEventRest_over_budget now event intent freeSlots _ _ _ _ b hb hp
    · rfl
    · exact scoreEventRest_over_budget now event intent freeSlots _ _ _ _ b hb hp

/-- C6: when a budget ceiling is set and an event's price strictly exceeds
it, the Matcher scores that event 0 and omits it from the result list
entirely (it is never included with a merely lower score). -/
theorem C6_budget_exclusion (now : Int) (events : List ScrapedEvent)
    (intent : UserIntent) (freeSlots : Option (List OverlappingSlot))
    (e : ScrapedEvent) (b : ℚ)
    (hb : intent.budget = some b) (hp : b < e.price) :
    (scoreEvent now e intent freeSlots (detectTimeRange now intent)).score = 0 ∧
    ∀ m ∈ matchEvents now events intent freeSlots, m.event ≠ e := by
  have h0 := scoreEvent_over_budget now e intent freeSlots
    (detectTimeRange now intent) b hb hp
  refine ⟨h0, ?_⟩
  intro m hm he
  simp only [matchEvents] at hm
  have hm2 := List.mem_mergeSort.mp (List.mem_of_mem_take hm)
  rw [List.mem_filterMap] at hm2
  obtain ⟨e', he', hf⟩ := hm2
  by_cases hs :
      0 < (scoreEvent now e' intent freeSlots (detectTimeRange now intent)).score
  · rw [if_pos hs] at hf
    have hev : m.event = e' := by
      cases hf
      rfl
    rw [hev] at he
    rw [he] at hs
    rw [h0] at hs
    exact absurd hs (by norm_num)
  · rw [if_neg hs] at hf
    exact Option.noConfusion hf

/-- C6 witness: a 100-dollar event against a 50-dollar budget scores 0. -/
theorem C6_budget_exclusion_witness :
    (scoreEvent demoClock.nowMs
      ⟨"Gala", "LPR", "Feb 28", "8:00 PM", "Saturday", 100, false, "", ""⟩
      ⟨[⟨"Aman", ""⟩], some 50, [], [], false, "", ""⟩ none
      (detectTimeRange demoClock.nowMs
        ⟨[⟨"Aman", ""⟩], some 50, [], [], false, "", ""⟩)).score = 0 :=
  (C6_budget_exclusion demoClock.nowMs []
    ⟨[⟨"Aman", ""⟩], some 50, [], [], false, "", ""⟩ none
    ⟨"Gala", "LPR", "Feb 28", "8:00 PM", "Saturday", 100, false, "", ""⟩ 50
    rfl (by norm_num)).1

theorem scoreLe_trans : ∀ a b c : EventMatch,
    scoreLe a b → scoreLe b c → scoreLe a c := by
  intro a b c hab hbc
  simp only [scoreLe, decide_eq_true_eq] at *
  omega

theorem scoreLe_total : ∀ a b : EventMatch, scoreLe a b || scoreLe b a := by
  intro a b
  simp only [scoreLe, Bool.or_eq_true, decide_eq_true_eq]
  omega

/-- C9: for every event list and intent, the Matcher result is sorted in
descending score order, has at most 15 entries, every entry carries a
strictly positive score (equal to the score the scorer assigns its event,
which is drawn from the input list), and every hard-excluded event (score
forced to 0) is absent from the list. -/
theorem C9_matcher_output_shape (now : Int) (events : List ScrapedEvent)
    (intent : UserIntent) (freeSlots : Option (List OverlappingSlot)) :
    (matchEvents now events intent freeSlots).Pairwise
      (fun a b => b.score ≤ a.score) ∧
    (matchEvents now events intent freeSlots).length ≤ 15 ∧
    (∀ m ∈ matchEvents now events intent freeSlots,
      0 < m.score ∧ m.event ∈ events ∧
      (scoreEvent now m.event intent freeSlots
        (detectTimeRange now intent)).score = m.score) ∧
    (∀ e ∈ events,
      (scoreEvent now e intent freeSlots (detectTimeRange now intent)).score = 0 →
      ∀ m ∈ matchEvents now events intent freeSlots, m.event ≠ e) := by
  have hmem : ∀ m ∈ matchEvents now events intent freeSlots,
      0 < m.score ∧ m.event ∈ events ∧
      (scoreEvent now m.event intent freeSlots
        (detectTimeRange now intent)).score = m.score := by
    intro m hm
    simp only [matchEvents] at hm
    have hm2 := List.mem_mergeSort.mp (List.mem_of_mem_take hm)
    rw [List.mem_filterMap] at hm2
    obtain ⟨e', he', hf⟩ := hm2
    by_cases hs :
        0 < (scoreEvent now e' intent freeSlots (detectTimeRange now intent)).score
    · rw [if_pos hs] at hf
      cases hf
      exact ⟨hs, he', rfl⟩
    · rw [if_neg hs] at hf
      exact Option.noConfusion hf
  refine ⟨?_, ?_, hmem, ?_⟩
  · simp only [matchEvents]
    have h := List.sorted_mergeSort scoreLe_trans scoreLe_total
      (events.filterMap (fun e =>
        let r := scoreEvent now e intent freeSlots (detectTimeRange now intent)
        if 0 < r.score then
          some ⟨e, r.score, r.reasons, r.calendarMatch, r.matchingSlot⟩
        else none))
    have h2 := List.Pairwise.sublist (List.take_sublist 15 _) h
    exact h2.imp (fun hab => by simpa [scoreLe] using hab)
  · simp only [matchEvents]
    exact List.length_take_le 15 _
  · intro e _ hsc m hm hev
    obtain ⟨hpos, _, hscore⟩ := hmem m hm
    rw [hev, hsc] at hscore
    rw [← hscore] at hpos
    exact absurd hpos (by norm_num)

/-- C9 witness: the theorem applied to the empty discovery list. -/
theorem C9_matcher_output_shape_witness :
    (matchEvents demoClock.nowMs [] ⟨[], none, [], [], false, "", ""⟩ none).length ≤ 15 :=
  (C9_matcher_output_shape demoClock.nowMs [] ⟨[], none, [], [], false, "", ""⟩ none).2.1

/-- An event whose free flag is false but whose scraped price is 0 (e.g. a
failed price lookup). -/
def zeroPriceEvent : ScrapedEvent :=
  ⟨"RSVP Night", "Le Poisson Rouge", "", "", "", 0, false, "", ""⟩

/-- C1 counterexample: the claim quantifies over every event whose `isFree`
flag is false, but the gate treats `price == 0` as free
(`event.isFree || event.price === 0`). For a flag-false, price-0 event with
no wallet, `proceedToPayment` runs the mint collaborator in the same turn -
with no payment receipt anywhere (the gate has no receipt input at all on
this path) - so the claimed invariant fails at this input. -/
theorem C1_counterexample :
    zeroPriceEvent.isFree = false ∧
    (proceedToPayment demoEnvNoMint demoClock demoCalEnv zeroPriceEvent
      [⟨"User", ""⟩] [] none none none initialAgentState).2.2.mintCalled = true ∧
    (proceedToPayment demoEnvNoMint demoClock demoCalEnv zeroPriceEvent
      [⟨"User", ""⟩] [] none none none initialAgentState).2.2.mintRequest =
      some (zeroPriceEvent, [⟨"User", ""⟩]) := by
  refine ⟨rfl, ?_, ?_⟩ <;> simp [proceedToPayment, zeroPriceEvent, optTruthy]

/-- C1 amended: restricted to events the gate itself considers paid
(`isFree = false` AND `price ≠ 0`), the claim holds: `proceedToPayment`
never invokes the mint collaborator in that turn (with a wallet it suspends
for the asynchronous wallet action; minting happens only in the separate
resumption entry point, which is reached with the payment receipt), and with
no wallet identity it blocks entirely - no wallet action, no pending
booking, no tickets, no booking result, and no mint call. -/
theorem C1_paid_gate_blocks (env : SolanaEnv) (clock : ClockEnv)
    (calEnv : CalendarEnv) (event : ScrapedEvent) (attendees : List Attendee)
    (toolCalls : List ToolCallResult) (wallet : Option String)
    (calTok : Option String) (emails : Option (List String)) (st : AgentState)
    (hfree : event.isFree = false) (hp : event.price ≠ 0) :
    ((proceedToPayment env clock calEnv event attendees toolCalls wallet
        calTok emails st).2.2.mintCalled = false ∧
     (proceedToPayment env clock calEnv event attendees toolCalls wallet
        calTok emails st).2.2.mintRequest = none) ∧
    (wallet = none →
      (proceedToPayment env clock calEnv event attendees toolCalls wallet
          calTok emails st).1.walletAction = none ∧
      (proceedToPayment env clock calEnv event attendees toolCalls wallet
          calTok emails st).1.pendingBooking = none ∧
      (proceedToPayment env clock calEnv event attendees toolCalls wallet
          calTok emails st).1.tickets = none ∧
      (proceedToPayment env clock calEnv event attendees toolCalls wallet
          calTok emails st).1.bookingResult = none) := by
  have hne0 : (event.price == 0) = false := by
    simp [beq_iff_eq]
    exact hp
  by_cases hw : optTruthy wallet = true
  · constructor
    · constructor <;> simp [proceedToPayment, hw, hfree, hne0]
    · intro h
      rw [h] at hw
      simp [optTruthy] at hw
  · have hw' : optTruthy wallet = false := by
      revert hw
      cases optTruthy wallet <;> simp
    constructor
    · constructor <;> simp [proceedToPayment, hw', hfree, hne0]
    · intro _
      refine ⟨?_, ?_, ?_, ?_⟩ <;> simp [proceedToPayment, hw', hfree, hne0]

/-- C1 witness: the amended theorem at a genuinely paid event with no
wallet: the gate blocks and the mint collaborator is never called. -/
theorem C1_paid_gate_blocks_witness :
    (proceedToPayment demoEnvNoMint demoClock demoCalEnv cPaidEvent cAttendees
      [] none none none initialAgentState).2.2.mintCalled = false ∧
    (proceedToPayment demoEnvNoMint demoClock demoCalEnv cPaidEvent cAttendees
      [] none none none initialAgentState).1.walletAction = none :=
  ⟨((C1_paid_gate_blocks demoEnvNoMint demoClock demoCalEnv cPaidEvent
      cAttendees [] none none none initialAgentState (by rfl)
      (by norm_num [cPaidEvent])).1).1,
   ((C1_paid_gate_blocks demoEnvNoMint demoClock demoCalEnv cPaidEvent
      cAttendees [] none none none initialAgentState (by rfl)
      (by norm_num [cPaidEvent])).2 rfl).1⟩

/-- `x || undefined` leaves any value other than the empty string alone. -/
theorem orUndefined_eq_self (ct : Option String) (hct : ct ≠ some "") :
    orUndefined ct = ct := by
  cases ct with
  | none => rfl
  | some s =>
    have hs : s ≠ "" := fun h => hct (by rw [h])
    simp [orUndefined, hs]

/-- C8: the `PendingBooking` snapshot produced by the payment gate is
exactly `{event, attendees, calendarToken, attendeeEmails}` (both in the
free sign-message branch and the paid transfer branch); echoing it back
unchanged through the execute-booking route reaches `executePendingBooking`
with the very same fields, and the mint collaborator is then invoked with
exactly the snapshot's event and attendee list - no field is lost or
altered across the suspend/resume boundary. (The wallet must be nonempty
and the calendar token not the empty string, or the route's JavaScript
falsiness checks reject/normalise them.) -/
theorem C8_pending_booking_roundtrip (env : SolanaEnv) (clock : ClockEnv)
    (calEnv : CalendarEnv) (event : ScrapedEvent) (attendees : List Attendee)
    (tc : List ToolCallResult) (wallet : String) (ct : Option String)
    (emails : Option (List String)) (st st2 : AgentState)
    (ptx wsig : Option String)
    (hw : wallet ≠ "") (hct : ct ≠ some "") :
    (proceedToPayment env clock calEnv event attendees tc (some wallet) ct
       emails st).1.pendingBooking = some ⟨event, attendees, ct, emails⟩ ∧
    executeBookingRoutePOST env clock calEnv
        ⟨some event, some attendees, some wallet, ptx, wsig, ct, emails⟩ st2 =
      .ok (executePendingBooking env clock calEnv event attendees wallet ptx
        ct emails st2) ∧
    (executePendingBooking env clock calEnv event attendees wallet ptx ct
       emails st2).2.2.mintRequest = some (event, attendees) := by
  have hwt : optTruthy (some wallet) = true := by simp [optTruthy, hw]
  refine ⟨?_, ?_, ?_⟩
  · simp only [proceedToPayment, hwt, if_true]
    split <;> rfl
  · simp [executeBookingRoutePOST, hw, orUndefined_eq_self ct hct]
  · simp [executePendingBooking]

/-- C8 witness: the round trip at a concrete paid event with calendar
context attached. -/
theorem C8_pending_booking_roundtrip_witness :
    (proceedToPayment demoEnvNoMint demoClock demoCalEnv cPaidEvent cAttendees
       [] (some "Wallet1111") (some "tok123") (some ["a@b.com"])
       initialAgentState).1.pendingBooking =
      some ⟨cPaidEvent, cAttendees, some "tok123", some ["a@b.com"]⟩ ∧
    (executePendingBooking demoEnvNoMint demoClock demoCalEnv cPaidEvent
       cAttendees "Wallet1111" none (some "tok123") (some ["a@b.com"])
       initialAgentState).2.2.mintRequest = some (cPaidEvent, cAttendees) :=
  ⟨(C8_pending_booking_roundtrip demoEnvNoMint demoClock demoCalEnv cPaidEvent
      cAttendees [] "Wallet1111" (some "tok123") (some ["a@b.com"])
      initialAgentState initialAgentState none none (by decide) (by decide)).1,
   (C8_pending_booking_roundtrip demoEnvNoMint demoClock demoCalEnv cPaidEvent
      cAttendees [] "Wallet1111" (some "tok123") (some ["a@b.com"])
      initialAgentState initialAgentState none none (by decide) (by decide)).2.2⟩

/-- A confirmed-free event fixture for the post-mint email scenario. -/
def wFreeEvent : ScrapedEvent :=
  ⟨"Open Mic", "Le Poisson Rouge", "", "", "", 0, true, "", ""⟩

/-- The agent state right after a successful server-side mint of the free
event (no wallet, no calendar): `awaitingEmail` is set and the
`BookingResult` is cached. -/
def postMintState : AgentState :=
  (proceedToPayment demoEnvNoMint demoClock demoCalEnv wFreeEvent
    [⟨"User", ""⟩] [] none none none initialAgentState).2.1

/-- The state after the user answers "no thanks" to the email offer (the
deterministic classifier prefix applied in the post-mint state). -/
def afterNoThanksState : AgentState :=
  applyClassifyStep
    (classifyActionDet "no thanks" postMintState.awaitingConfirmation
      postMintState.awaitingEmail postMintState.awaitingBookAnyway)
    postMintState

/-- C3 counterexample: after the mint and the "no thanks" turn, the message
"my email is x@y.com" (an email address plus the word "email") hits the
FIRST, unconditional short-circuit of `classifyAction`
(`hasEmail && !isCalendarContext && wantsEmail`) and is classified
`provide_email` - not `general_question` and not `search_events` as the
claim asserts. -/
theorem C3_counterexample :
    (classifyActionDet "my email is x@y.com"
       afterNoThanksState.awaitingConfirmation afterNoThanksState.awaitingEmail
       afterNoThanksState.awaitingBookAnyway).result = some .provide_email ∧
    (classifyActionDet "my email is x@y.com"
       afterNoThanksState.awaitingConfirmation afterNoThanksState.awaitingEmail
       afterNoThanksState.awaitingBookAnyway).result ≠
      some .general_question ∧
    (classifyActionDet "my email is x@y.com"
       afterNoThanksState.awaitingConfirmation afterNoThanksState.awaitingEmail
       afterNoThanksState.awaitingBookAnyway).result ≠ some .search_events := by
  decide

/-- C3 amended: after a successful mint the orchestrator is in
`awaitingEmail` with a cached `BookingResult`; "no thanks" is classified
`general_question` and clears both the awaiting-email flag and the cached
result (this half of the claim holds). The subsequent "my email is
x@y.com", however, is classified `provide_email` by the unconditional email
short-circuit; the email handler then finds no cached result, answers that
there is nothing to email, and never invokes the email collaborator. -/
theorem C3_no_thanks_clears_then_provide_email :
    postMintState.awaitingEmail = true ∧
    postMintState.lastBookingResult.isSome = true ∧
    (classifyActionDet "no thanks" postMintState.awaitingConfirmation
       postMintState.awaitingEmail postMintState.awaitingBookAnyway).result =
      some .general_question ∧
    afterNoThanksState.awaitingEmail = false ∧
    afterNoThanksState.lastBookingResult = none ∧
    (classifyActionDet "my email is x@y.com"
       afterNoThanksState.awaitingConfirmation afterNoThanksState.awaitingEmail
       afterNoThanksState.awaitingBookAnyway).result = some .provide_email ∧
    (handleEmailSend demoEmailEnv afterNoThanksState "my email is x@y.com"
       []).2.2 = false ∧
    (handleEmailSend demoEmailEnv afterNoThanksState "my email is x@y.com"
       []).1.response =
      "I do not have a recent booking to email. Book some tickets first, then I will send the confirmation!" := by
  decide

/-- Every branch of `proceedToPayment` reaches the payment gate, never
calls the calendar checker, and leaves `awaitingBookAnyway` untouched. -/
theorem proceedToPayment_trace (env : SolanaEnv) (clock : ClockEnv)
    (calEnv : CalendarEnv) (event : ScrapedEvent) (attendees : List Attendee)
    (tc : List ToolCallResult) (wallet : Option String) (ct : Option String)
    (emails : Option (List String)) (st : AgentState) :
    (proceedToPayment env clock calEnv event attendees tc wallet ct emails
       st).2.2.paymentGateReached = true ∧
    (proceedToPayment env clock calEnv event attendees tc wallet ct emails
       st).2.2.calendarCheckCalled = false ∧
    (proceedToPayment env clock calEnv event attendees tc wallet ct emails
       st).2.1.awaitingBookAnyway = st.awaitingBookAnyway := by
  refine ⟨?_, ?_, ?_⟩ <;>
    · simp only [proceedToPayment]
      split <;> split <;> first
        | rfl
        | simp [apply_ite]

set_option maxHeartbeats 2000000 in
/-- C4: whenever the calendar availability check actually runs (calendar
connected, emails supplied, event date/time present) and succeeds with at
least one busy attendee, the orchestrator suspends in `awaitingBookAnyway`
(caching event/attendees/wallet) and neither the payment gate nor the mint
step is reached in that turn; when it succeeds with all attendees free it
proceeds to the payment gate in the same turn, with no "book anyway" input;
and the resumed book-anyway path goes straight to the payment gate with no
second calendar check. -/
theorem C4_calendar_gate (env : SolanaEnv) (clock : ClockEnv)
    (calEnv : CalendarEnv) (fetch : FreeBusyOutcome) (event : ScrapedEvent)
    (attendees0 : List Attendee) (tc : List ToolCallResult)
    (wallet : Option String) (ct : Option String)
    (emails : Option (List String)) (st : AgentState)
    (h1 : optTruthy ct = true)
    (h2 : ¬(emails = none ∨ emails = some []))
    (h3 : event.date ≠ "" ∧ event.time ≠ "") :
    ((checkCalendarForEvent clock.nowMs fetch (ct.getD "") (emails.getD [])
        event.date event.time).success = true →
     (checkCalendarForEvent clock.nowMs fetch (ct.getD "") (emails.getD [])
        event.date event.time).allFree = false →
      (executeAndRespond env clock calEnv fetch event attendees0 tc wallet ct
         emails st).2.2.mintCalled = false ∧
      (executeAndRespond env clock calEnv fetch event attendees0 tc wallet ct
         emails st).2.2.paymentGateReached = false ∧
      (executeAndRespond env clock calEnv fetch event attendees0 tc wallet ct
         emails st).2.1.awaitingBookAnyway = true ∧
      (executeAndRespond env clock calEnv fetch event attendees0 tc wallet ct
         emails st).2.1.pendingConflictBooking =
        some ⟨event, if attendees0.isEmpty then [⟨"User", ""⟩] else attendees0,
          wallet, none, none⟩ ∧
      (executeAndRespond env clock calEnv fetch event attendees0 tc wallet ct
         emails st).1.walletAction = none ∧
      (executeAndRespond env clock calEnv fetch event attendees0 tc wallet ct
         emails st).1.tickets = none) ∧
    ((checkCalendarForEvent clock.nowMs fetch (ct.getD "") (emails.getD [])
        event.date event.time).success = true →
     (checkCalendarForEvent clock.nowMs fetch (ct.getD "") (emails.getD [])
        event.date event.time).allFree = true →
      (executeAndRespond env clock calEnv fetch event attendees0 tc wallet ct
         emails st).2.2.paymentGateReached = true) ∧
    (∀ (st' : AgentState) (pcb : PendingConflictBooking),
      st'.pendingConflictBooking = some pcb →
      (handleBookAnyway env clock calEnv tc ct emails st').2.2.paymentGateReached
          = true ∧
      (handleBookAnyway env clock calEnv tc ct emails
         st').2.2.calendarCheckCalled = false ∧
      (handleBookAnyway env clock calEnv tc ct emails
         st').2.1.awaitingBookAnyway = false) := by
  have hd : (event.date != "") = true := by simpa using h3.1
  have ht : (event.time != "") = true := by simpa using h3.2
  refine ⟨?_, ?_, ?_⟩
  · intro hs haf
    simp only [executeAndRespond, h1, if_true, if_neg h2, hd, ht,
      Bool.and_self, if_pos, hs, haf, Bool.not_false, if_true, Bool.true_and]
    simp
  · intro hs haf
    simp only [executeAndRespond, h1, if_true, if_neg h2, hd, ht,
      Bool.and_self, if_pos, hs, haf, Bool.not_true, if_true, Bool.true_and]
    simp [proceedToPayment_trace]
  · intro st' pcb hpcb
    simp only [handleBookAnyway, hpcb]
    refine ⟨(proceedToPayment_trace _ _ _ _ _ _ _ _ _ _).1,
      (proceedToPayment_trace _ _ _ _ _ _ _ _ _ _).2.1, ?_⟩
    rw [(proceedToPayment_trace _ _ _ _ _ _ _ _ _ _).2.2]

/-- C4 witness: a concrete busy FreeBusy response for the only attendee
makes the gate suspend in `awaitingBookAnyway` with no mint call. -/
theorem C4_calendar_gate_witness :
    (executeAndRespond demoEnvNoMint demoClock demoCalEnv
       (.ok [("akash@y.com", ⟨none, some [("22:30", "23:30")]⟩)])
       cPaidEvent cAttendees [] (some "Wallet1111") (some "tok123")
       (some ["akash@y.com"]) initialAgentState).2.1.awaitingBookAnyway = true ∧
    (executeAndRespond demoEnvNoMint demoClock demoCalEnv
       (.ok [("akash@y.com", ⟨none, some [("22:30", "23:30")]⟩)])
       cPaidEvent cAttendees [] (some "Wallet1111") (some "tok123")
       (some ["akash@y.com"]) initialAgentState).2.2.mintCalled = false :=
  ⟨((C4_calendar_gate demoEnvNoMint demoClock demoCalEnv
      (.ok [("akash@y.com", ⟨none, some [("22:30", "23:30")]⟩)])
      cPaidEvent cAttendees [] (some "Wallet1111") (some "tok123")
      (some ["akash@y.com"]) initialAgentState (by decide) (by decide)
      (by decide)).1 (by decide) (by decide)).2.2.1,
   ((C4_calendar_gate demoEnvNoMint demoClock demoCalEnv
      (.ok [("akash@y.com", ⟨none, some [("22:30", "23:30")]⟩)])
      cPaidEvent cAttendees [] (some "Wallet1111") (some "tok123")
      (some ["akash@y.com"]) initialAgentState (by decide) (by decide)
      (by decide)).1 (by decide) (by decide)).1⟩

/-- Monday 00:00 of the current week, exactly as `detectTimeRange` computes
it (weeks start Monday; Sunday steps back 6 days). -/
def mondayOfWeek (now : Int) : Int :=
  atMidnight (addDays (atMidnight now)
    (if getDay (atMidnight now) = 0 then -6 else 1 - getDay (atMidnight now)))

/-- Sunday 23:59:59.999 of the current week. -/
def sundayOfWeek (now : Int) : Int := endOfDay (addDays (mondayOfWeek now) 6)

/-- Saturday 00:00 of the current week. -/
def saturdayOfWeek (now : Int) : Int := atMidnight (addDays (mondayOfWeek now) 5)

/-- Floor division by the day length agrees with Euclidean division (the
divisor is positive), letting `omega` reason about day numbers. -/
theorem fdiv_day (t : Int) : Int.fdiv t 86400000 = t / 86400000 :=
  Int.fdiv_eq_ediv t (by norm_num)

theorem dayNumber_atMidnight (t : Int) : dayNumber (atMidnight t) = dayNumber t := by
  unfold atMidnight setTime timeOfDayMs dayNumber msPerDay
  simp only [fdiv_day]
  omega

theorem dayNumber_endOfDay (t : Int) : dayNumber (endOfDay t) = dayNumber t := by
  unfold endOfDay setTime timeOfDayMs dayNumber msPerDay
  simp only [fdiv_day]
  omega

theorem dayNumber_addDays (t n : Int) :
    dayNumber (addDays t n) = dayNumber t + n := by
  unfold addDays dayNumber msPerDay
  simp only [fdiv_day]
  omega

theorem getDay_eq (t : Int) : getDay t = (dayNumber t + 4) % 7 := rfl

theorem getDay_mondayOfWeek (t : Int) : getDay (mondayOfWeek t) = 1 := by
  unfold mondayOfWeek
  rw [getDay_eq, dayNumber_atMidnight, dayNumber_addDays, dayNumber_atMidnight,
    getDay_eq, dayNumber_atMidnight]
  split <;> omega

theorem getDay_sundayOfWeek (t : Int) : getDay (sundayOfWeek t) = 0 := by
  have h := getDay_mondayOfWeek t
  rw [getDay_eq] at h
  unfold sundayOfWeek
  rw [getDay_eq, dayNumber_endOfDay, dayNumber_addDays]
  omega

theorem getDay_saturdayOfWeek (t : Int) : getDay (saturdayOfWeek t) = 6 := by
  have h := getDay_mondayOfWeek t
  rw [getDay_eq] at h
  unfold saturdayOfWeek
  rw [getDay_eq, dayNumber_atMidnight, dayNumber_addDays]
  omega

set_option maxHeartbeats 1000000 in
/-- C7: the Time-Window Parser applies its rules in the documented priority
order with first match wins. (1) An explicit "next N days" phrase maps to
[today, today+N] before any week rule fires. (2) "this week" with no
higher-priority phrase maps to [this Monday, this Sunday]. (3) A weekend
day-preference or the phrase "weekend" (no higher rule matching) maps to
[this Saturday, this Sunday]. (4) A bare mention of "week" with no other
qualifier maps to [today, today+7]. (5) Otherwise there is no constraint.
Weeks start Monday (the computed Monday/Saturday/Sunday land on weekdays
1/6/0), ranges are inclusive (ends at 23:59:59.999), and everything is
computed from the `now` passed at call time. -/
theorem C7_time_window_rules (now : Int) (intent : UserIntent)
    (notes : String) (days : List String)
    (hnotes : notes = lowerStr intent.additionalNotes)
    (hdays : days = intent.preferredDays.map lowerStr) :
    (∀ n, findNDays notes.data = some n →
      detectTimeRange now intent =
        some ⟨atMidnight now, endOfDay (addDays (atMidnight now) n)⟩) ∧
    (findNDays notes.data = none →
     hasTwoWeeks notes = false →
     containsSub notes "couple of weeks" = false →
     containsSub notes "next" = false →
     containsSub notes "next week" = false →
     containsSub notes "both weeks" = false →
     containsSub notes "this week" = true →
      detectTimeRange now intent = some ⟨mondayOfWeek now, sundayOfWeek now⟩) ∧
    (findNDays notes.data = none →
     hasTwoWeeks notes = false →
     containsSub notes "couple of weeks" = false →
     containsSub notes "this week" = false →
     containsSub notes "next week" = false →
     containsSub notes "both weeks" = false →
     containsSub notes "this month" = false →
     (days.contains "weekend" || days.contains "this weekend" ||
       containsSub notes "this weekend" || containsSub notes "weekend") = true →
      detectTimeRange now intent =
        some ⟨saturdayOfWeek now, sundayOfWeek now⟩) ∧
    (findNDays notes.data = none →
     hasTwoWeeks notes = false →
     containsSub notes "couple of weeks" = false →
     containsSub notes "this week" = false →
     containsSub notes "next week" = false →
     containsSub notes "both weeks" = false →
     containsSub notes "this month" = false →
     days.contains "weekend" = false →
     days.contains "this weekend" = false →
     containsSub notes "this weekend" = false →
     containsSub notes "weekend" = false →
     containsSub notes "today" = false →
     containsSub notes "tonight" = false →
     containsSub notes "tomorrow" = false →
     containsSub notes "week" = true →
      detectTimeRange now intent =
        some ⟨atMidnight now, endOfDay (addDays (atMidnight now) 7)⟩) ∧
    (findNDays notes.data = none →
     hasTwoWeeks notes = false →
     containsSub notes "couple of weeks" = false →
     containsSub notes "this week" = false →
     containsSub notes "next week" = false →
     containsSub notes "both weeks" = false →
     containsSub notes "this month" = false →
     days.contains "weekend" = false →
     days.contains "this weekend" = false →
     containsSub notes "this weekend" = false →
     containsSub notes "weekend" = false →
     containsSub notes "today" = false →
     containsSub notes "tonight" = false →
     containsSub notes "tomorrow" = false →
     containsSub notes "week" = false →
      detectTimeRange now intent = none) ∧
    getDay (mondayOfWeek now) = 1 ∧
    getDay (saturdayOfWeek now) = 6 ∧
    getDay (sundayOfWeek now) = 0 ∧
    sundayOfWeek now = endOfDay (addDays (mondayOfWeek now) 6) := by
  subst hnotes hdays
  refine ⟨?_, ?_, ?_, ?_, ?_, getDay_mondayOfWeek now, getDay_saturdayOfWeek now,
    getDay_sundayOfWeek now, rfl⟩
  · intro n hn
    simp only [detectTimeRange, hn]
  · intro h1 h2 h3 h4 h5 h6 h7
    simp only [detectTimeRange, mondayOfWeek, sundayOfWeek, h1, h2, h3, h4, h5,
      h6, h7, Bool.false_or, Bool.or_false, Bool.and_false, Bool.false_and,
      Bool.and_true, Bool.true_and, Bool.or_self, if_false, if_true,
      Bool.false_eq_true, ite_false, ite_true]
  · intro h1 h2 h3 h4 h5 h6 h7 h8
    simp only [detectTimeRange, saturdayOfWeek, sundayOfWeek, mondayOfWeek,
      h1, h2, h3, h4, h5, h6, h7, h8, Bool.false_or, Bool.or_false,
      Bool.and_false, Bool.false_and, Bool.or_self, if_false, if_true,
      Bool.false_eq_true, ite_false, ite_true, Bool.not_false]
  · intro h1 h2 h3 h4 h5 h6 h7 h8 h9 h10 h11 h12 h13 h14 h15
    simp only [detectTimeRange, h1, h2, h3, h4, h5, h6, h7, h8, h9, h10, h11,
      h12, h13, h14, h15, Bool.false_or, Bool.or_false, Bool.and_false,
      Bool.false_and, Bool.or_self, if_false, if_true, Bool.false_eq_true,
      ite_false, ite_true, Bool.not_false]
  · intro h1 h2 h3 h4 h5 h6 h7 h8 h9 h10 h11 h12 h13 h14 h15
    simp only [detectTimeRange, h1, h2, h3, h4, h5, h6, h7, h8, h9, h10, h11,
      h12, h13, h14, h15, Bool.false_or, Bool.or_false, Bool.and_false,
      Bool.false_and, Bool.or_self, if_false, if_true, Bool.false_eq_true,
      ite_false, ite_true, Bool.not_false]

/-- C7 witness: on Wednesday 2026-10-07 a bare weekend preference maps to
[Saturday 2026-10-10 00:00, Sunday 2026-10-11 23:59:59.999]. -/
theorem C7_time_window_rules_witness :
    detectTimeRange (civilToDays 2026 10 7 * msPerDay)
      ⟨[], none, ["weekend"], [], false, "", ""⟩ =
      some ⟨saturdayOfWeek (civilToDays 2026 10 7 * msPerDay),
            sundayOfWeek (civilToDays 2026 10 7 * msPerDay)⟩ :=
  (C7_time_window_rules (civilToDays 2026 10 7 * msPerDay)
      ⟨[], none, ["weekend"], [], false, "", ""⟩
      (lowerStr "") (["weekend"].map lowerStr) rfl rfl).2.2.1
    (by decide) (by decide) (by decide) (by decide) (by decide) (by decide)
    (by decide) (by decide)

end TickClick
